import Mathlib

/-!
# BasicBallSimulation: a shallow embedding of `JS/gamePage.js`

The JavaScript source works on IEEE doubles.  The embedding keeps the *special values* of the
number type (`NaN`, `+Infinity`, `-Infinity`), because the source divides by quantities that can
be zero, and idealises the finite values: a finite number is an element of a linearly ordered
field `K` and arithmetic on finite numbers is exact (no rounding, no overflow, no signed zero).
`Math.PI`, `Math.sqrt` and `Math.atan2` on finite arguments are parameters of the development
(`JSMath`); every property of them that a theorem needs is a hypothesis of that theorem.

Objects that the source mutates in place (`Ball`, `Circle`, `State`) are modelled by explicit
state passing: an operation that mutates `this` or another actor takes the actor array of the
state and returns the mutated array.  Object identity (`this === actor`) is equality of the
position in the actor array: an actor array holds each object once.  The fields `id` and
`updateId` and the collision tags are natural numbers.  Drawing (`Canvas.reload`, the colour of
the strokes, the field `ctx`) and the position readout of the page are outside the embedding.
-/

namespace BallSim

/-! ## Numbers -/

/-- A JavaScript number: a finite value, one of the two infinities, or NaN. -/
inductive JSNum (K : Type) where
  | fin : K → JSNum K
  | pinf : JSNum K
  | ninf : JSNum K
  | nan : JSNum K
  deriving DecidableEq, Repr

namespace JSNum

variable {K : Type} [LinearOrderedField K]

/-- The infinity with the sign of `a`, NaN when `a` is zero (`a * Infinity`). -/
def signedInf (a : K) : JSNum K :=
  if 0 < a then pinf else if a < 0 then ninf else nan

/-- JavaScript `a + b`. -/
def add : JSNum K → JSNum K → JSNum K
  | fin a, fin b => fin (a + b)
  | nan, _ => nan
  | _, nan => nan
  | pinf, ninf => nan
  | ninf, pinf => nan
  | pinf, _ => pinf
  | _, pinf => pinf
  | ninf, _ => ninf
  | _, ninf => ninf

/-- JavaScript unary `-a`. -/
def neg : JSNum K → JSNum K
  | fin a => fin (-a)
  | pinf => ninf
  | ninf => pinf
  | nan => nan

/-- JavaScript `a - b`. -/
def sub (a b : JSNum K) : JSNum K := add a (neg b)

/-- JavaScript `a * b`. -/
def mul : JSNum K → JSNum K → JSNum K
  | fin a, fin b => fin (a * b)
  | nan, _ => nan
  | _, nan => nan
  | fin a, pinf => signedInf a
  | fin a, ninf => signedInf (-a)
  | pinf, fin b => signedInf b
  | ninf, fin b => signedInf (-b)
  | pinf, pinf => pinf
  | ninf, ninf => pinf
  | pinf, ninf => ninf
  | ninf, pinf => ninf

/-- JavaScript `a / b`; a finite number divided by zero is an infinity, `0 / 0` is NaN. -/
def div : JSNum K → JSNum K → JSNum K
  | fin a, fin b => if b = 0 then signedInf a else fin (a / b)
  | nan, _ => nan
  | _, nan => nan
  | fin _, pinf => fin 0
  | fin _, ninf => fin 0
  | pinf, fin b => if 0 ≤ b then pinf else ninf
  | ninf, fin b => if 0 ≤ b then ninf else pinf
  | pinf, pinf => nan
  | pinf, ninf => nan
  | ninf, pinf => nan
  | ninf, ninf => nan

instance : Add (JSNum K) := ⟨add⟩
instance : Sub (JSNum K) := ⟨sub⟩
instance : Mul (JSNum K) := ⟨mul⟩
instance : Div (JSNum K) := ⟨div⟩
instance : Neg (JSNum K) := ⟨neg⟩

/-- JavaScript `a ** 2`. -/
def sq (a : JSNum K) : JSNum K := a * a

/-- JavaScript `a <= b`; false as soon as one side is NaN. -/
def le : JSNum K → JSNum K → Bool
  | fin a, fin b => decide (a ≤ b)
  | nan, _ => false
  | _, nan => false
  | ninf, _ => true
  | _, pinf => true
  | _, _ => false

/-- JavaScript `a >= b`. -/
def ge (a b : JSNum K) : Bool := le b a

/-- JavaScript `a < b`; false as soon as one side is NaN. -/
def lt : JSNum K → JSNum K → Bool
  | fin a, fin b => decide (a < b)
  | nan, _ => false
  | _, nan => false
  | pinf, _ => false
  | _, ninf => false
  | _, _ => true

/-- JavaScript `a > b`. -/
def gt (a b : JSNum K) : Bool := lt b a

/-- `Math.min(a, b)`: NaN as soon as one argument is NaN. -/
def min : JSNum K → JSNum K → JSNum K
  | nan, _ => nan
  | _, nan => nan
  | a, b => if le a b then a else b

/-- `Math.max(a, b)`: NaN as soon as one argument is NaN. -/
def max : JSNum K → JSNum K → JSNum K
  | nan, _ => nan
  | _, nan => nan
  | a, b => if le a b then b else a

/-- Truthiness of a number in `x || d`: `0` and NaN are falsy. -/
def truthy : JSNum K → Bool
  | fin a => decide (a ≠ 0)
  | nan => false
  | _ => true

/-- The value of `x || d` when `x` is a number that may be absent (`undefined`). -/
def orDefault (x : Option (JSNum K)) (d : JSNum K) : JSNum K :=
  match x with
  | some v => if truthy v then v else d
  | none => d

/-- The number is finite. -/
def isFin : JSNum K → Bool
  | fin _ => true
  | _ => false

/-- JavaScript `a % b` (the remainder has the sign of the dividend). -/
def fmod [FloorRing K] : JSNum K → JSNum K → JSNum K
  | fin a, fin b =>
    if b = 0 then nan
    else if 0 ≤ a / b then fin (a - b * (⌊a / b⌋ : K)) else fin (a - b * (⌈a / b⌉ : K))
  | fin a, pinf => fin a
  | fin a, ninf => fin a
  | _, _ => nan

end JSNum

/-- The part of the `Math` object the program uses, on finite arguments. -/
structure JSMath (K : Type) where
  /-- The constant `Math.PI`. -/
  PI : K
  /-- The function `Math.sqrt` on a finite non-negative argument. -/
  sqrt : K → K
  /-- The function `Math.atan2(y, x)` on finite arguments. -/
  atan2 : K → K → K

namespace JSMath

variable {K : Type} [LinearOrderedField K]

/-- `Math.sqrt` on every number: NaN below zero, `+Infinity` at `+Infinity`. -/
def sqrtNum (m : JSMath K) : JSNum K → JSNum K
  | .fin a => if a < 0 then .nan else .fin (m.sqrt a)
  | .pinf => .pinf
  | .ninf => .nan
  | .nan => .nan

/-- `Math.atan2(y, x)` on every number; the values at the infinities are the standard ones. -/
def atan2Num (m : JSMath K) : JSNum K → JSNum K → JSNum K
  | .fin y, .fin x => .fin (m.atan2 y x)
  | .nan, _ => .nan
  | _, .nan => .nan
  | .fin _, .pinf => .fin 0
  | .fin y, .ninf => .fin (if y < 0 then -m.PI else m.PI)
  | .pinf, .fin _ => .fin (m.PI / 2)
  | .ninf, .fin _ => .fin (-(m.PI / 2))
  | .pinf, .pinf => .fin (m.PI / 4)
  | .pinf, .ninf => .fin (3 * m.PI / 4)
  | .ninf, .pinf => .fin (-(m.PI / 4))
  | .ninf, .ninf => .fin (-(3 * m.PI / 4))

end JSMath

variable {K : Type} [LinearOrderedField K]

/-! ## Data model -/

/-- The class `Vector`: an immutable pair of numbers. -/
structure Vector (K : Type) where
  x : JSNum K
  y : JSNum K
  deriving DecidableEq, Repr

namespace Vector

/-- A vector with finite components. -/
def ofK (x y : K) : Vector K := ⟨.fin x, .fin y⟩

/-- The method `Vector.add`. -/
def add (a b : Vector K) : Vector K := ⟨a.x + b.x, a.y + b.y⟩

/-- The method `Vector.subtract`. -/
def subtract (a b : Vector K) : Vector K := ⟨a.x - b.x, a.y - b.y⟩

/-- The method `Vector.multiply`. -/
def multiply (a : Vector K) (scalar : JSNum K) : Vector K := ⟨a.x * scalar, a.y * scalar⟩

/-- The method `Vector.dotProduct`. -/
def dotProduct (a b : Vector K) : JSNum K := a.x * b.x + a.y * b.y

/-- The getter `Vector.magnitude`. -/
def magnitude (m : JSMath K) (a : Vector K) : JSNum K := m.sqrtNum (a.x.sq + a.y.sq)

/-- The getter `Vector.direction`; the arguments are in the order of the source. -/
def direction (m : JSMath K) (a : Vector K) : JSNum K := m.atan2Num a.x a.y

end Vector

/-- The constant `worldGravity`. -/
def worldGravity : Vector K := ⟨.fin 0, .fin (5 / 100000)⟩

/-- The value of `x || d` for an object-valued `x` that may be absent: objects are truthy. -/
def objOrDefault {α : Type} (x : Option α) (d : α) : α :=
  match x with
  | some v => v
  | none => d

/-- The value of `x || d` for a string that may be absent: the empty string is falsy. -/
def strOrDefault (x : Option String) (d : String) : String :=
  match x with
  | some v => if v = "" then d else v
  | none => d

/-- The `canvas` element of a `Canvas` display; only its size is read by the simulation. -/
structure Canvas (K : Type) where
  width : JSNum K
  height : JSNum K
  deriving DecidableEq, Repr

/-- The constructor of `Canvas` with its default size. -/
def Canvas.new (width : Option (JSNum K)) (height : Option (JSNum K)) : Canvas K :=
  ⟨objOrDefault width (.fin 800), objOrDefault height (.fin 800)⟩

/-- The fields of a `Ball` object (`type` is the constructor of `Actor`). -/
structure Ball (K : Type) where
  position : Vector K
  velocity : Vector K
  radius : JSNum K
  color : String
  mass : JSNum K
  gravityForce : Vector K
  id : Nat
  collisions : List Nat
  deriving DecidableEq, Repr

/-- The `config` argument of the `Ball` constructor, restricted to the fields it reads. -/
structure BallConfig (K : Type) where
  position : Option (Vector K) := none
  velocity : Option (Vector K) := none
  radius : Option (JSNum K) := none
  color : Option String := none
  gravityForce : Option (Vector K) := none

/-- The fields of a `Circle` object; the drawing context `ctx` is left out. -/
structure Circle (K : Type) where
  position : Vector K
  velocity : Vector K
  radius : JSNum K
  color : String
  rotationSpeed : JSNum K
  rotationDirection : JSNum K
  openAngleRange : JSNum K
  openGapStart : JSNum K
  openGapEnd : JSNum K
  id : Nat
  collisions : List Nat
  deriving DecidableEq, Repr

/-- The `config` argument of the `Circle` constructor, restricted to the fields it reads. -/
structure CircleConfig (K : Type) where
  position : Option (Vector K) := none
  velocity : Option (Vector K) := none
  radius : Option (JSNum K) := none
  color : Option String := none
  rotationSpeed : Option (JSNum K) := none
  rotationDirection : Option (JSNum K) := none
  openAngleRange : Option (JSNum K) := none
  openGapStart : Option (JSNum K) := none

/-- An element of `state.actors`, told apart by its `type` field. -/
inductive Actor (K : Type) where
  | ball : Ball K → Actor K
  | circle : Circle K → Actor K
  deriving DecidableEq, Repr

/-- The fields of a `State` object. -/
structure State (K : Type) where
  display : Canvas K
  actors : List (Actor K)
  updateId : Nat
  deriving DecidableEq, Repr

/-- The constructor of `State`. -/
def State.new (display : Canvas K) (actors : List (Actor K)) : State K :=
  { display := display, actors := actors, updateId := 0 }

/-! ## Constructors and getters -/

/-- The constructor of `Ball`: every field comes from `config` or its default; `id` and
`collisions` are always reset. -/
def Ball.new (m : JSMath K) (config : BallConfig K) : Ball K :=
  let radius := JSNum.orDefault config.radius (.fin 10)
  let mass := .fin m.PI * radius.sq
  { position := objOrDefault config.position ⟨.fin 20, .fin 20⟩
    velocity := objOrDefault config.velocity ⟨.fin (3 / 4), .fin (3 / 2)⟩
    radius := radius
    color := strOrDefault config.color "red"
    mass := mass
    gravityForce := objOrDefault config.gravityForce ((worldGravity : Vector K).multiply mass)
    id := 0
    collisions := [] }

/-- The fields of the object spread of a ball that the constructor reads. -/
def Ball.toConfig (b : Ball K) : BallConfig K :=
  { position := some b.position
    velocity := some b.velocity
    radius := some b.radius
    color := some b.color
    gravityForce := some b.gravityForce }

/-- The getter `Ball.sphereArea`. -/
def Ball.sphereArea (m : JSMath K) (b : Ball K) : JSNum K :=
  .fin 4 * .fin m.PI * b.radius.sq

/-- The method `Ball.applyGravity`, which overwrites `this.velocity`. -/
def Ball.applyGravity (b : Ball K) : Ball K :=
  { b with velocity := b.velocity.add b.gravityForce }

/-- The constructor of `Circle`; `openGapEnd` is always recomputed from the two other angles. -/
def Circle.new (m : JSMath K) (config : CircleConfig K) : Circle K :=
  let openAngleRange := JSNum.orDefault config.openAngleRange (.fin m.PI / .fin 2)
  let openGapStart := JSNum.orDefault config.openGapStart (.fin 0)
  { position := objOrDefault config.position ⟨.fin 0, .fin 0⟩
    velocity := objOrDefault config.velocity ⟨.fin 0, .fin 0⟩
    radius := JSNum.orDefault config.radius (.fin 100)
    color := strOrDefault config.color "red"
    rotationSpeed := JSNum.orDefault config.rotationSpeed (.fin (3 / 1000))
    rotationDirection := JSNum.orDefault config.rotationDirection (.fin 1)
    openAngleRange := openAngleRange
    openGapStart := openGapStart
    openGapEnd := openGapStart + openAngleRange
    id := 0
    collisions := [] }

/-- The fields of the object spread of a circle that the constructor reads. -/
def Circle.toConfig (c : Circle K) : CircleConfig K :=
  { position := some c.position
    velocity := some c.velocity
    radius := some c.radius
    color := some c.color
    rotationSpeed := some c.rotationSpeed
    rotationDirection := some c.rotationDirection
    openAngleRange := some c.openAngleRange
    openGapStart := some c.openGapStart }

/-- The field `id` of an actor. -/
def Actor.id : Actor K → Nat
  | .ball b => b.id
  | .circle c => c.id

/-- The field `position` of an actor. -/
def Actor.position : Actor K → Vector K
  | .ball b => b.position
  | .circle c => c.position

/-- The field `velocity` of an actor. -/
def Actor.velocity : Actor K → Vector K
  | .ball b => b.velocity
  | .circle c => c.velocity

/-- The field `collisions` of an actor. -/
def Actor.collisions : Actor K → List Nat
  | .ball b => b.collisions
  | .circle c => c.collisions

/-! ## Collision resolution -/

/-- The function `hollowCircleCollisionVector`. -/
def hollowCircleCollisionVector (m : JSMath K) (ball : Ball K) (circle : Circle K) : Vector K :=
  let normalVector := circle.position.subtract ball.position
  let distance := normalVector.magnitude m
  let normalizedNormalVector : Vector K := ⟨normalVector.x / distance, normalVector.y / distance⟩
  let perpendicularVelocityMagnitude := ball.velocity.dotProduct normalizedNormalVector
  let perpendicularVelocity := normalizedNormalVector.multiply perpendicularVelocityMagnitude
  ball.velocity.subtract (perpendicularVelocity.multiply (.fin 2))

/-- The function `collisionVector`. -/
def collisionVector (m : JSMath K) (b1 b2 : Ball K) : Vector K :=
  b1.velocity.subtract
    (((b1.position.subtract b2.position).multiply
        ((b1.velocity.subtract b2.velocity).dotProduct (b1.position.subtract b2.position)
          / ((b1.position.subtract b2.position).magnitude m).sq)).multiply
      ((.fin 2 * b2.sphereArea m) / (b1.sphereArea m + b2.sphereArea m)))

/-- One iteration of the loop of `Ball.checkBallCollision`: `this` is the ball at position `i`
of the actor array (threaded separately), `j` is the position of `actor`.  The result is the
mutated `this` and the mutated array. -/
def Ball.checkBallCollisionStep (m : JSMath K) (updateId i : Nat)
    (st : Ball K × List (Actor K)) (j : Nat) : Ball K × List (Actor K) :=
  match st.2[j]? with
  | some (.ball actor) =>
    if i = j ∨ (actor.id + updateId) ∈ st.1.collisions then st
    else
      let distance :=
        ((st.1.position.add st.1.velocity).subtract (actor.position.add actor.velocity)).magnitude m
      if JSNum.le distance (st.1.radius + actor.radius) then
        let v1 := collisionVector m st.1 actor
        let v2 := collisionVector m actor st.1
        ({ st.1 with velocity := v1, collisions := st.1.collisions ++ [actor.id + updateId] },
          st.2.set j (.ball { actor with velocity := v2,
                                         collisions := actor.collisions ++ [st.1.id + updateId] }))
      else st
  | _ => st

/-- The method `Ball.checkBallCollision` of the ball at position `i`. -/
def Ball.checkBallCollision (m : JSMath K) (updateId i : Nat)
    (this : Ball K) (actors : List (Actor K)) : Ball K × List (Actor K) :=
  (List.range actors.length).foldl (Ball.checkBallCollisionStep m updateId i) (this, actors)

/-- The value `normalizedAngle` of `Ball.checkHollowCircleCollision`: the angle of the ball
relative to the centre of the circle, brought into one turn. -/
def normalizedAngle [FloorRing K] (m : JSMath K) (this : Ball K) (actor : Circle K) : JSNum K :=
  let angle := m.atan2Num (this.position.y - actor.position.y) (this.position.x - actor.position.x)
  JSNum.fmod (angle + .fin 2 * .fin m.PI) (.fin 2 * .fin m.PI)

/-- The value `inOpenGap` of `Ball.checkHollowCircleCollision`. -/
def inOpenGap [FloorRing K] (m : JSMath K) (this : Ball K) (actor : Circle K) : Bool :=
  JSNum.ge (normalizedAngle m this actor) actor.openGapStart
    && JSNum.le (normalizedAngle m this actor) actor.openGapEnd

/-- One iteration of the loop of `Ball.checkHollowCircleCollision`. -/
def Ball.checkHollowCircleCollisionStep [FloorRing K] (m : JSMath K) (updateId : Nat)
    (this : Ball K) (actor : Actor K) : Ball K :=
  match actor with
  | .circle actor =>
    let distanceToCenter :=
      ((this.position.add this.velocity).subtract (actor.position.add actor.velocity)).magnitude m
    if JSNum.ge distanceToCenter (actor.radius - this.radius)
        && JSNum.le distanceToCenter (actor.radius + .fin 9)
        && !inOpenGap m this actor then
      { this with velocity := hollowCircleCollisionVector m this actor,
                  collisions := this.collisions ++ [actor.id + updateId] }
    else this
  | _ => this

/-- The method `Ball.checkHollowCircleCollision`; it only mutates `this`. -/
def Ball.checkHollowCircleCollision [FloorRing K] (m : JSMath K) (updateId : Nat)
    (this : Ball K) (actors : List (Actor K)) : Ball K :=
  actors.foldl (Ball.checkHollowCircleCollisionStep m updateId) this

/-! ## The update step -/

/-- The vector `upperLimit` of `Ball.update`. -/
def Ball.upperLimit (display : Canvas K) (this : Ball K) : Vector K :=
  ⟨display.width - this.radius, display.height - this.radius⟩

/-- The vector `lowerLimit` of `Ball.update`. -/
def Ball.lowerLimit (this : Ball K) : Vector K :=
  ⟨.fin 0 + this.radius, .fin 0 + this.radius⟩

/-- The start of `Ball.update`: `applyGravity`, then the two wall tests, each of which
overwrites `this.velocity`. -/
def Ball.reflectWalls (upperLimit lowerLimit : Vector K) (this : Ball K) : Ball K :=
  let this := this.applyGravity
  let this :=
    if JSNum.ge this.position.x upperLimit.x || JSNum.le this.position.x lowerLimit.x then
      { this with velocity := ⟨-this.velocity.x, this.velocity.y⟩ }
    else this
  if JSNum.ge this.position.y upperLimit.y || JSNum.le this.position.y lowerLimit.y then
    { this with velocity := ⟨this.velocity.x, -this.velocity.y + this.gravityForce.y * .fin (3 / 2)⟩ }
  else this

/-- The method `Ball.update` of the ball `this` at position `i` of `actors`.  The first component
is the actor array after the call (with the mutated `this` written back at `i`), the second is
the returned ball.  The write to the position readout of the page and the `slice` whose result
is dropped have no effect on the simulation; `time` is not read. -/
def Ball.update [FloorRing K] (m : JSMath K) (display : Canvas K) (_time : JSNum K)
    (updateId i : Nat) (this : Ball K) (actors : List (Actor K)) : List (Actor K) × Ball K :=
  let upperLimit := Ball.upperLimit display this
  let lowerLimit := Ball.lowerLimit this
  let this := this.reflectWalls upperLimit lowerLimit
  let scan := Ball.checkBallCollision m updateId i this actors
  let this := Ball.checkHollowCircleCollision m updateId scan.1 scan.2
  let newX := JSNum.max (JSNum.min (this.position.x + this.velocity.x) upperLimit.x) lowerLimit.x
  let newY := JSNum.max (JSNum.min (this.position.y + this.velocity.y) upperLimit.y) lowerLimit.y
  (scan.2.set i (.ball this),
    Ball.new m { this.toConfig with position := some ⟨newX, newY⟩ })

/-- The method `Circle.rotate`, which overwrites the two gap angles of `this`. -/
def Circle.rotate (m : JSMath K) (this : Circle K) : Circle K :=
  let openGapStart := this.openGapStart + this.rotationSpeed * this.rotationDirection
  let openGapEnd := this.openGapEnd + this.rotationSpeed * this.rotationDirection
  let openGapEnd :=
    if JSNum.gt openGapEnd (.fin m.PI * .fin 2) then openGapEnd - .fin m.PI * .fin 2
    else if JSNum.lt openGapEnd (.fin 0) then openGapEnd + .fin m.PI * .fin 2
    else openGapEnd
  let openGapStart :=
    if JSNum.gt openGapStart (.fin m.PI * .fin 2) then openGapStart - .fin m.PI * .fin 2
    else if JSNum.lt openGapStart (.fin 0) then openGapStart + .fin m.PI * .fin 2
    else openGapStart
  { this with openGapStart := openGapStart, openGapEnd := openGapEnd }

/-- The method `Circle.update`: the mutated `this` and the returned circle; `state` and `time`
are not read. -/
def Circle.update (m : JSMath K) (_time : JSNum K) (this : Circle K) : Circle K × Circle K :=
  let this := this.rotate m
  (this, Circle.new m this.toConfig)

/-- The circle obtained by `n` successive calls of `Circle.update`, each on the circle returned
by the previous one. -/
def Circle.updateN (m : JSMath K) (time : JSNum K) : Nat → Circle K → Circle K
  | 0, c => c
  | n + 1, c => Circle.updateN m time n (Circle.update m time c).2

/-- The call `actor.update(this, time, this.updateId)` on the actor at position `i`: the actor
array after the call and the returned actor. -/
def Actor.update [FloorRing K] (m : JSMath K) (display : Canvas K) (time : JSNum K)
    (updateId i : Nat) (actor : Actor K) (actors : List (Actor K)) : List (Actor K) × Actor K :=
  match actor with
  | .ball b =>
    let r := Ball.update m display time updateId i b actors
    (r.1, .ball r.2)
  | .circle c =>
    let r := Circle.update m time c
    (actors.set i (.circle r.1), .circle r.2)

/-- One callback of the `map` of `State.update`: `st.1` is the actor array of the old state,
`st.2` the results so far. -/
def State.updateStep [FloorRing K] (m : JSMath K) (display : Canvas K) (time : JSNum K)
    (updateId : Nat) (st : List (Actor K) × List (Actor K)) (i : Nat) :
    List (Actor K) × List (Actor K) :=
  match st.1[i]? with
  | some actor =>
    let r := Actor.update m display time updateId i actor st.1
    (r.1, st.2 ++ [r.2])
  | none => st

/-- The method `State.update`.  The first component is the receiver after the call (its
`updateId` incremented, its actors mutated by their `update` methods), the second is the
returned state. -/
def State.update [FloorRing K] (m : JSMath K) (this : State K) (time : JSNum K) :
    State K × State K :=
  let updateId := this.updateId + 1
  let r := (List.range this.actors.length).foldl
    (State.updateStep m this.display time updateId) (this.actors, [])
  ({ this with updateId := updateId, actors := r.1 }, State.new this.display r.2)

/-- The actor array of the receiver of `State.update` when the callback of `map` for position
`j` starts: the callbacks for the positions before `j` have run and have mutated the actors. -/
def State.actorsBefore [FloorRing K] (m : JSMath K) (this : State K) (time : JSNum K)
    (j : Nat) : List (Actor K) :=
  ((List.range j).foldl
    (State.updateStep m this.display time (this.updateId + 1)) (this.actors, [])).1

/-! ## The frame driver -/

/-- One call of the closure `frame` of `runAnimation`: `lastTime` is `none` for `null`.  The
first component is the argument with which `animation` is called, if it is called; the second is
the new `lastTime`. -/
def frame (lastTime : Option (JSNum K)) (time : JSNum K) : Option (JSNum K) × Option (JSNum K) :=
  match lastTime with
  | some last => (some (JSNum.min (.fin 100) (time - last) / .fin 1000), some time)
  | none => (none, some time)

/-- The time steps handed to `animation` by successive calls of `frame`, starting from the
given `lastTime`. -/
def frames (lastTime : Option (JSNum K)) : List (JSNum K) → List (JSNum K)
  | [] => []
  | time :: rest =>
    match (frame lastTime time).1 with
    | some timeStep => timeStep :: frames (frame lastTime time).2 rest
    | none => frames (frame lastTime time).2 rest

/-- The function `runAnimation` over the sequence of timestamps of the host: `lastTime` starts
as `null`; the result lists the arguments of the calls of `animation`. -/
def runAnimation (times : List (JSNum K)) : List (JSNum K) := frames none times

/-! ## The part of a state that no update overwrites -/

/-- The fields of a ball other than `velocity` and `collisions`, the two fields that `update`
and the collision scans overwrite; these two are blanked. -/
def Ball.fixedPart (b : Ball K) : Ball K :=
  { b with velocity := ⟨.fin 0, .fin 0⟩, collisions := [] }

/-- The fields of a circle other than `openGapStart` and `openGapEnd`, the two fields that
`rotate` overwrites; these two are blanked. -/
def Circle.fixedPart (c : Circle K) : Circle K :=
  { c with openGapStart := .fin 0, openGapEnd := .fin 0 }

/-- The kind of an actor together with the fields that no `update` overwrites. -/
def Actor.fixedPart : Actor K → Actor K
  | .ball b => .ball b.fixedPart
  | .circle c => .circle c.fixedPart

/-! ## Sample inputs -/

/-- The value of `Math.atan2` on the half-axes and at the origin; in an open quadrant the
stand-in returns the angle of the bisector. -/
def atan2Q (pi y x : ℚ) : ℚ :=
  if 0 < x then (if y = 0 then 0 else if 0 < y then pi / 4 else -(pi / 4))
  else if x < 0 then (if y = 0 then pi else if 0 < y then 3 * pi / 4 else -(3 * pi / 4))
  else (if y = 0 then 0 else if 0 < y then pi / 2 else -(pi / 2))

/-- A `Math` object over the rationals, for evaluating the model at sample points: `PI` is the
binary64 value of `Math.PI`, `sqrt` is exact on squares of rationals, `atan2` is exact on the
half-axes. -/
def mathQ : JSMath ℚ :=
  { PI := 884279719003555 / 281474976710656
    sqrt := Rat.sqrt
    atan2 := atan2Q (884279719003555 / 281474976710656) }

/-- The display built by `new Canvas()`: 800 by 800. -/
def display800 : Canvas ℚ := Canvas.new none none

/-- The ball `new Ball()`, built with the default configuration. -/
def defaultBall : Ball ℚ := Ball.new mathQ {}

/-- The ball of the wall scenario: at `(5, 400)` with velocity `(-1, 0)` and radius 10. -/
def leftWallBall : Ball ℚ :=
  Ball.new mathQ { position := some (.ofK 5 400), velocity := some (.ofK (-1) 0),
                   radius := some (.fin 10) }

/-- The ball of the rest scenario: at `(400, 400)` with velocity `(0, 0)`, radius 10 and no
gravity. -/
def restingBall : Ball ℚ :=
  Ball.new mathQ { position := some (.ofK 400 400), velocity := some (.ofK 0 0),
                   radius := some (.fin 10), gravityForce := some (.ofK 0 0) }

/-- A ball of radius 10 at rest at `(100, 0)`. -/
def gapBall : Ball ℚ :=
  Ball.new mathQ { position := some (.ofK 100 0), velocity := some (.ofK 0 0),
                   radius := some (.fin 10), gravityForce := some (.ofK 0 0) }

/-- The circle `new Circle()`: centre `(0, 0)`, radius 100, gap from `0` to a quarter turn. -/
def defaultCircle : Circle ℚ := Circle.new mathQ {}

/-- A circle whose gap starts at half a turn, is half a turn wide, and rotates by half a turn
per update. -/
def halfTurnCircle : Circle ℚ :=
  Circle.new mathQ { openGapStart := some (.fin mathQ.PI), openAngleRange := some (.fin mathQ.PI),
                     rotationSpeed := some (.fin mathQ.PI) }

/-- The configuration of `circle2` in `startGame`: the gap starts at three quarters of a turn
and is an eighth of a turn wide; speed and direction are the defaults `0.003` and `1`. -/
def circle2Config : CircleConfig ℚ :=
  { color := some "blue", radius := some (.fin 120),
    openGapStart := some (.fin (3 / 2) * .fin mathQ.PI),
    openAngleRange := some (.fin mathQ.PI / .fin 4),
    position := some (.ofK 400 400) }

/-- A ball of radius 10 at `(100, 100)` moving to the right. -/
def energyBallA : Ball ℚ :=
  Ball.new mathQ { position := some (.ofK 100 100), velocity := some (.ofK 1 0),
                   radius := some (.fin 10) }

/-- A ball of radius 10 at `(103, 104)`, at distance 5 from `energyBallA`. -/
def energyBallB : Ball ℚ :=
  Ball.new mathQ { position := some (.ofK 103 104), velocity := some (.ofK (-1) 2),
                   radius := some (.fin 10) }

/-- The left ball of the head-on scenario: radius 10, at `(100, 100)`, moving right, no
gravity. -/
def headOnLeft : Ball ℚ :=
  Ball.new mathQ { position := some (.ofK 100 100), velocity := some (.ofK 1 0),
                   radius := some (.fin 10), gravityForce := some (.ofK 0 0) }

/-- The right ball of the head-on scenario: radius 10, at `(121, 100)`, moving left, no
gravity. -/
def headOnRight : Ball ℚ :=
  Ball.new mathQ { position := some (.ofK 121 100), velocity := some (.ofK (-1) 0),
                   radius := some (.fin 10), gravityForce := some (.ofK 0 0) }

/-- The state of the head-on scenario. -/
def headOnState : State ℚ := State.new display800 [.ball headOnLeft, .ball headOnRight]

/-- A ball of radius 10 at rest at `(400, 400)` under the gravity force `(0, 1)`. -/
def fallingBall : Ball ℚ :=
  Ball.new mathQ { position := some (.ofK 400 400), velocity := some (.ofK 0 0),
                   radius := some (.fin 10), gravityForce := some (.ofK 0 1) }

/-- The state that holds `fallingBall` alone. -/
def fallingState : State ℚ := State.new display800 [.ball fallingBall]

/-- A circle of radius 5 centred at `(100, 100)`. -/
def smallCircle : Circle ℚ :=
  Circle.new mathQ { position := some (.ofK 100 100), radius := some (.fin 5) }

/-- A ball of radius 5 at `(103, 104)`. -/
def smallBall : Ball ℚ :=
  Ball.new mathQ { position := some (.ofK 103 104), velocity := some (.ofK (-1) 2),
                   radius := some (.fin 5) }

/-- A ball of radius 10 at rest at `(-100, 0)`, on the side of the default circle opposite to
its gap. -/
def bandBall : Ball ℚ :=
  Ball.new mathQ { position := some (.ofK (-100) 0), velocity := some (.ofK 0 0),
                   radius := some (.fin 10), gravityForce := some (.ofK 0 0) }

/-- A ball of radius 10 below the floor limit of the 800 high display, falling. -/
def floorBall : Ball ℚ :=
  Ball.new mathQ { position := some (.ofK 400 795), velocity := some (.ofK 1 2),
                   radius := some (.fin 10), gravityForce := some (.ofK 0 1) }

/-- The upper ball of the stacked pair: radius 10, at rest at `(100, 121)`, gravity force
`(0, 2)`. -/
def stackedFirst : Ball ℚ :=
  Ball.new mathQ { position := some (.ofK 100 121), velocity := some (.ofK 0 0),
                   radius := some (.fin 10), gravityForce := some (.ofK 0 2) }

/-- The lower ball of the stacked pair: radius 10, at rest at `(100, 100)`, gravity force
`(0, 2)`. -/
def stackedSecond : Ball ℚ :=
  Ball.new mathQ { position := some (.ofK 100 100), velocity := some (.ofK 0 0),
                   radius := some (.fin 10), gravityForce := some (.ofK 0 2) }

/-- The state of the stacked pair. -/
def stackedState : State ℚ := State.new display800 [.ball stackedFirst, .ball stackedSecond]

/-- The left ball of the overlapping pair: radius 10, at `(100, 100)`, moving right, no
gravity. -/
def overlapLeft : Ball ℚ :=
  Ball.new mathQ { position := some (.ofK 100 100), velocity := some (.ofK 1 0),
                   radius := some (.fin 10), gravityForce := some (.ofK 0 0) }

/-- The right ball of the overlapping pair: radius 10, at `(110, 100)`, moving left, no
gravity. -/
def overlapRight : Ball ℚ :=
  Ball.new mathQ { position := some (.ofK 110 100), velocity := some (.ofK (-1) 0),
                   radius := some (.fin 10), gravityForce := some (.ofK 0 0) }

/-- The state of the overlapping pair. -/
def overlapState : State ℚ := State.new display800 [.ball overlapLeft, .ball overlapRight]

/-- The configuration of `circle3` in `startGame`: the gap starts at a full turn. -/
def circle3Config (m : JSMath K) : CircleConfig K :=
  { radius := some (.fin 180),
    openGapStart := some (.fin 2 * .fin m.PI),
    openAngleRange := some (.fin m.PI / .fin 4),
    position := some (.ofK 400 400),
    rotationSpeed := some (.fin (6 / 1000)),
    rotationDirection := some (.fin (-1)) }

/-- A ball of radius 6 at `(580, 400)`, on the circle `circle3` straight to the right of its
centre, moving outwards. -/
def wrapBall (m : JSMath K) : Ball K :=
  Ball.new m { position := some (.ofK 580 400), velocity := some (.ofK 1 0),
               radius := some (.fin 6) }

/-- A ball of radius 10 at rest at `(100, 100)`. -/
def crowdFirst : Ball ℚ :=
  Ball.new mathQ { position := some (.ofK 100 100), velocity := some (.ofK 0 0) }

/-- Three balls of radius 10 at rest that overlap one another. -/
def crowd : List (Actor ℚ) :=
  [.ball crowdFirst,
   .ball (Ball.new mathQ { position := some (.ofK 105 100), velocity := some (.ofK 0 0) }),
   .ball (Ball.new mathQ { position := some (.ofK 95 100), velocity := some (.ofK 0 0) })]

/-! ## Arithmetic on finite numbers -/

namespace JSNum

@[simp] theorem fin_add_fin (a b : K) : (fin a + fin b : JSNum K) = fin (a + b) := rfl

@[simp] theorem fin_sub_fin (a b : K) : (fin a - fin b : JSNum K) = fin (a - b) := by
  show add (fin a) (neg (fin b)) = _
  simp [add, neg, sub_eq_add_neg]

@[simp] theorem fin_mul_fin (a b : K) : (fin a * fin b : JSNum K) = fin (a * b) := rfl

@[simp] theorem neg_fin (a : K) : (-(fin a) : JSNum K) = fin (-a) := rfl

@[simp] theorem sq_fin (a : K) : (fin a).sq = fin (a * a) := rfl

theorem fin_div_fin (a b : K) (h : b ≠ 0) : (fin a / fin b : JSNum K) = fin (a / b) := by
  show div (fin a) (fin b) = _
  simp [div, h]

@[simp] theorem zero_div_zero : (fin (0 : K) / fin 0 : JSNum K) = nan := by
  show div (fin 0) (fin 0) = _
  simp [div, signedInf]

@[simp] theorem nan_mul (a : JSNum K) : (nan * a : JSNum K) = nan := by
  show mul nan a = _
  cases a <;> rfl

@[simp] theorem mul_nan (a : JSNum K) : (a * nan : JSNum K) = nan := by
  show mul a nan = _
  cases a <;> rfl

@[simp] theorem nan_add (a : JSNum K) : (nan + a : JSNum K) = nan := by
  show add nan a = _
  cases a <;> rfl

@[simp] theorem add_nan (a : JSNum K) : (a + nan : JSNum K) = nan := by
  show add a nan = _
  cases a <;> rfl

@[simp] theorem nan_sub (a : JSNum K) : (nan - a : JSNum K) = nan := by
  show add nan (neg a) = _
  cases a <;> rfl

@[simp] theorem sub_nan (a : JSNum K) : (a - nan : JSNum K) = nan := by
  show add a (neg nan) = _
  cases a <;> rfl

@[simp] theorem le_fin_fin (a b : K) : le (fin a) (fin b) = decide (a ≤ b) := rfl

@[simp] theorem ge_fin_fin (a b : K) : ge (fin a) (fin b) = decide (b ≤ a) := rfl

@[simp] theorem lt_fin_fin (a b : K) : lt (fin a) (fin b) = decide (a < b) := rfl

@[simp] theorem gt_fin_fin (a b : K) : gt (fin a) (fin b) = decide (b < a) := rfl

@[simp] theorem min_fin_fin (a b : K) : min (fin a) (fin b) = fin (Min.min a b) := by
  simp only [min, le_fin_fin, min_def]
  by_cases h : a ≤ b <;> simp [h]

@[simp] theorem max_fin_fin (a b : K) : max (fin a) (fin b) = fin (Max.max a b) := by
  simp only [max, le_fin_fin, max_def]
  by_cases h : a ≤ b <;> simp [h]

@[simp] theorem max_nan_left (a : JSNum K) : max nan a = nan := by
  cases a <;> rfl

@[simp] theorem min_nan_left (a : JSNum K) : min nan a = nan := by
  cases a <;> rfl

@[simp] theorem le_nan_right (a : JSNum K) : le a nan = false := by
  cases a <;> rfl

@[simp] theorem le_nan_left (a : JSNum K) : le nan a = false := by
  cases a <;> rfl

end JSNum

/-! ## The steps of `Ball.update` -/

theorem range_one : List.range 1 = [0] := rfl

theorem range_two : List.range 2 = [0, 1] := rfl

theorem mathQ_sqrt_zero : mathQ.sqrt 0 = 0 := by
  have h := Rat.sqrt_eq 0
  simp only [mul_zero, abs_zero] at h
  exact h

theorem mathQ_sqrt_mul_self (q : ℚ) : mathQ.sqrt (q * q) * mathQ.sqrt (q * q) = q * q := by
  show Rat.sqrt (q * q) * Rat.sqrt (q * q) = q * q
  rw [Rat.sqrt_eq, abs_mul_abs_self]

/-- Gravity and the wall tests on a ball whose fields are finite. -/
theorem Ball.reflectWalls_fin (W H px py vx vy r gx gy : K) (b : Ball K) (display : Canvas K)
    (hd : display = ⟨.fin W, .fin H⟩)
    (hp : b.position = .ofK px py) (hv : b.velocity = .ofK vx vy) (hr : b.radius = .fin r)
    (hg : b.gravityForce = .ofK gx gy) :
    b.reflectWalls (Ball.upperLimit display b) (Ball.lowerLimit b) =
      { b with velocity := (Vector.ofK
          (if W - r ≤ px ∨ px ≤ 0 + r then -(vx + gx) else vx + gx)
          (if H - r ≤ py ∨ py ≤ 0 + r then -(vy + gy) + gy * (3 / 2) else vy + gy)) } := by
  subst hd
  obtain ⟨p, v, rad, c, ms, g, id, cs⟩ := b
  simp only at hp hv hr hg
  subst hp hv hr hg
  simp only [Ball.reflectWalls, Ball.applyGravity, Ball.upperLimit, Ball.lowerLimit, Vector.add,
    Vector.ofK, JSNum.fin_add_fin, JSNum.fin_sub_fin, JSNum.ge_fin_fin, JSNum.le_fin_fin,
    Bool.or_eq_true, decide_eq_true_eq]
  by_cases hx : W - r ≤ px ∨ px ≤ 0 + r <;> by_cases hy : H - r ≤ py ∨ py ≤ 0 + r <;>
    simp only [hx, hy, if_true, if_false, JSNum.neg_fin, JSNum.fin_add_fin, JSNum.fin_mul_fin,
      JSNum.ge_fin_fin, JSNum.le_fin_fin, decide_eq_true_eq]

/-- The method `Ball.update` once the results of its two scans are known. -/
theorem Ball.update_of_scan [FloorRing K] (m : JSMath K) (display : Canvas K) (time : JSNum K)
    (updateId i : Nat) (this t1 t2 : Ball K) (actors acts1 : List (Actor K))
    (hscan : Ball.checkBallCollision m updateId i
      (this.reflectWalls (Ball.upperLimit display this) (Ball.lowerLimit this)) actors = (t1, acts1))
    (hhollow : Ball.checkHollowCircleCollision m updateId t1 acts1 = t2) :
    Ball.update m display time updateId i this actors =
      (acts1.set i (.ball t2),
        Ball.new m { t2.toConfig with position := some (Vector.mk
          (JSNum.max (JSNum.min (t2.position.x + t2.velocity.x) (Ball.upperLimit display this).x)
            (Ball.lowerLimit this).x)
          (JSNum.max (JSNum.min (t2.position.y + t2.velocity.y) (Ball.upperLimit display this).y)
            (Ball.lowerLimit this).y)) }) := by
  simp only [Ball.update, hscan, hhollow]

theorem Ball.new_toConfig_position (m : JSMath K) (b : Ball K) (p : Vector K) :
    (Ball.new m { b.toConfig with position := some p }).position = p := rfl

theorem Ball.new_toConfig_velocity (m : JSMath K) (b : Ball K) (p : Vector K) :
    (Ball.new m { b.toConfig with position := some p }).velocity = b.velocity := rfl

/-- The ball scan of the only actor of a state skips the ball itself. -/
theorem Ball.checkBallCollision_alone (m : JSMath K) (updateId : Nat) (this a : Ball K) :
    Ball.checkBallCollision m updateId 0 this [.ball a] = (this, [.ball a]) := by
  unfold Ball.checkBallCollision
  rw [show List.range [Actor.ball a].length = [0] from rfl]
  simp [Ball.checkBallCollisionStep]

/-- The scan of the first of two balls when the pair is resolved. -/
theorem Ball.checkBallCollision_pair_resolved (m : JSMath K) (updateId : Nat)
    (this a other : Ball K)
    (htag : (other.id + updateId) ∉ this.collisions)
    (hnear : JSNum.le
      (((this.position.add this.velocity).subtract
        (other.position.add other.velocity)).magnitude m) (this.radius + other.radius) = true) :
    Ball.checkBallCollision m updateId 0 this [.ball a, .ball other] =
      ({ this with velocity := collisionVector m this other,
                   collisions := this.collisions ++ [other.id + updateId] },
        [.ball a, .ball { other with velocity := collisionVector m other this,
                                     collisions := other.collisions ++ [this.id + updateId] }]) := by
  unfold Ball.checkBallCollision
  rw [show List.range [Actor.ball a, Actor.ball other].length = [0, 1] from rfl]
  simp only [List.foldl_cons, List.foldl_nil]
  have h0 : Ball.checkBallCollisionStep m updateId 0 (this, [.ball a, .ball other]) 0
      = (this, [.ball a, .ball other]) := by
    simp [Ball.checkBallCollisionStep]
  rw [h0]
  simp [Ball.checkBallCollisionStep, htag, hnear]

/-- The annulus scan leaves `this` alone when the state holds no circle. -/
theorem Ball.checkHollowCircleCollision_no_circle [FloorRing K] (m : JSMath K) (updateId : Nat)
    (this : Ball K) (actors : List (Actor K)) (h : ∀ a ∈ actors, ∃ b, a = .ball b) :
    Ball.checkHollowCircleCollision m updateId this actors = this := by
  unfold Ball.checkHollowCircleCollision
  induction actors with
  | nil => rfl
  | cons a rest ih =>
    obtain ⟨b, rfl⟩ := h a (List.mem_cons_self _ _)
    simp only [List.foldl_cons, Ball.checkHollowCircleCollisionStep]
    exact ih (fun x hx => h x (List.mem_cons_of_mem _ hx))

/-- In a state whose only actor is the ball itself, both scans leave `this` alone. -/
theorem Ball.update_alone [FloorRing K] (m : JSMath K) (display : Canvas K) (time : JSNum K)
    (updateId : Nat) (this b : Ball K)
    (hb : this.reflectWalls (Ball.upperLimit display this) (Ball.lowerLimit this) = b) :
    Ball.update m display time updateId 0 this [.ball this] =
      ([.ball b], Ball.new m { b.toConfig with position := some (Vector.mk
          (JSNum.max (JSNum.min (b.position.x + b.velocity.x) (Ball.upperLimit display this).x)
            (Ball.lowerLimit this).x)
          (JSNum.max (JSNum.min (b.position.y + b.velocity.y) (Ball.upperLimit display this).y)
            (Ball.lowerLimit this).y)) }) := by
  rw [Ball.update_of_scan m display time updateId 0 this b b [.ball this] [.ball this]
    (by rw [hb]; exact Ball.checkBallCollision_alone m updateId b this)
    (Ball.checkHollowCircleCollision_no_circle m updateId b _ (by simp))]
  rfl

/-- The result of `collisionVector` for two balls at the same finite position: `0 / 0`. -/
theorem collisionVector_same_position (m : JSMath K) (b1 b2 : Ball K) (x y vx1 vy1 vx2 vy2 : K)
    (h1 : b1.position = .ofK x y) (h2 : b2.position = .ofK x y)
    (hv1 : b1.velocity = .ofK vx1 vy1) (hv2 : b2.velocity = .ofK vx2 vy2)
    (hsqrt : m.sqrt 0 = 0) :
    collisionVector m b1 b2 = ⟨.nan, .nan⟩ := by
  simp [collisionVector, h1, h2, hv1, hv2, Vector.ofK, Vector.subtract, Vector.multiply,
    Vector.dotProduct, Vector.magnitude, JSMath.sqrtNum, hsqrt]

/-- The update of the first of two balls that share a position and whose pair is resolved
returns a ball whose position is NaN on both axes. -/
theorem Ball.update_coincident [FloorRing K] (m : JSMath K) (display : Canvas K) (time : JSNum K)
    (updateId : Nat) (this other : Ball K) (W H x y vx vy wx wy r1 gx gy : K)
    (hd : display = ⟨.fin W, .fin H⟩)
    (hp : this.position = .ofK x y) (hv : this.velocity = .ofK vx vy) (hr : this.radius = .fin r1)
    (hg : this.gravityForce = .ofK gx gy)
    (hp2 : other.position = .ofK x y) (hv2 : other.velocity = .ofK wx wy)
    (hsqrt : m.sqrt 0 = 0)
    (htag : (other.id + updateId) ∉ this.collisions)
    (hnear : JSNum.le
      (((this.position.add
          (this.reflectWalls (Ball.upperLimit display this) (Ball.lowerLimit this)).velocity).subtract
        (other.position.add other.velocity)).magnitude m) (this.radius + other.radius) = true) :
    (Ball.update m display time updateId 0 this [.ball this, .ball other]).2.position
      = ⟨.nan, .nan⟩ := by
  have hrw := Ball.reflectWalls_fin W H x y vx vy r1 gx gy this display hd hp hv hr hg
  have hscan := Ball.checkBallCollision_pair_resolved m updateId
    (this.reflectWalls (Ball.upperLimit display this) (Ball.lowerLimit this)) this other
    (by rw [hrw]; exact htag) (by rw [hrw] at hnear ⊢; exact hnear)
  have hcv : collisionVector m
      (this.reflectWalls (Ball.upperLimit display this) (Ball.lowerLimit this)) other
      = ⟨.nan, .nan⟩ := by
    rw [hrw]
    exact collisionVector_same_position m _ other x y _ _ wx wy hp hp2 rfl hv2 hsqrt
  rw [Ball.update_of_scan m display time updateId 0 this _ _ _ _ hscan
    (Ball.checkHollowCircleCollision_no_circle m updateId _ _ (by simp))]
  simp only [Ball.new_toConfig_position, hcv]
  rw [hrw]
  simp [hp, Vector.ofK]

/-! ## Ball against ball -/

theorem sqDist_nonneg (x1 y1 x2 y2 : K) : 0 ≤ (x1 - x2) * (x1 - x2) + (y1 - y2) * (y1 - y2) :=
  add_nonneg (mul_self_nonneg _) (mul_self_nonneg _)

theorem sqDist_pos (x1 y1 x2 y2 : K) (h : x1 ≠ x2 ∨ y1 ≠ y2) :
    0 < (x1 - x2) * (x1 - x2) + (y1 - y2) * (y1 - y2) := by
  rcases h with h | h
  · have : 0 < (x1 - x2) * (x1 - x2) := mul_self_pos.mpr (sub_ne_zero.mpr h)
    linarith [mul_self_nonneg (y1 - y2)]
  · have : 0 < (y1 - y2) * (y1 - y2) := mul_self_pos.mpr (sub_ne_zero.mpr h)
    linarith [mul_self_nonneg (x1 - x2)]

/-- The value of `collisionVector` on balls with finite fields when no divisor is zero. -/
theorem collisionVector_fin (m : JSMath K) (b1 b2 : Ball K)
    (x1 y1 x2 y2 vx1 vy1 vx2 vy2 r1 r2 : K)
    (hp1 : b1.position = .ofK x1 y1) (hp2 : b2.position = .ofK x2 y2)
    (hv1 : b1.velocity = .ofK vx1 vy1) (hv2 : b2.velocity = .ofK vx2 vy2)
    (hr1 : b1.radius = .fin r1) (hr2 : b2.radius = .fin r2)
    (hs : m.sqrt ((x1 - x2) * (x1 - x2) + (y1 - y2) * (y1 - y2)) ≠ 0)
    (hA : 4 * m.PI * (r1 * r1) + 4 * m.PI * (r2 * r2) ≠ 0) :
    collisionVector m b1 b2 = .ofK
      (vx1 - (x1 - x2) * (((vx1 - vx2) * (x1 - x2) + (vy1 - vy2) * (y1 - y2)) /
          (m.sqrt ((x1 - x2) * (x1 - x2) + (y1 - y2) * (y1 - y2)) *
            m.sqrt ((x1 - x2) * (x1 - x2) + (y1 - y2) * (y1 - y2)))) *
        (2 * (4 * m.PI * (r2 * r2)) / (4 * m.PI * (r1 * r1) + 4 * m.PI * (r2 * r2))))
      (vy1 - (y1 - y2) * (((vx1 - vx2) * (x1 - x2) + (vy1 - vy2) * (y1 - y2)) /
          (m.sqrt ((x1 - x2) * (x1 - x2) + (y1 - y2) * (y1 - y2)) *
            m.sqrt ((x1 - x2) * (x1 - x2) + (y1 - y2) * (y1 - y2)))) *
        (2 * (4 * m.PI * (r2 * r2)) / (4 * m.PI * (r1 * r1) + 4 * m.PI * (r2 * r2)))) := by
  have hss : m.sqrt ((x1 - x2) * (x1 - x2) + (y1 - y2) * (y1 - y2)) *
      m.sqrt ((x1 - x2) * (x1 - x2) + (y1 - y2) * (y1 - y2)) ≠ 0 := mul_ne_zero hs hs
  simp only [collisionVector, hp1, hp2, hv1, hv2, hr1, hr2, Vector.ofK, Vector.subtract,
    Vector.multiply, Vector.dotProduct, Vector.magnitude, JSMath.sqrtNum, Ball.sphereArea,
    JSNum.fin_sub_fin, JSNum.fin_mul_fin, JSNum.fin_add_fin, JSNum.sq_fin,
    if_neg (not_lt.mpr (sqDist_nonneg x1 y1 x2 y2)), JSNum.fin_div_fin _ _ hss,
    JSNum.fin_div_fin _ _ hA]

/-- Two balls of equal radius on a horizontal line, moving along it, exchange velocities. -/
theorem collisionVector_head_on (m : JSMath K) (b1 b2 : Ball K)
    (x1 y1 x2 y2 vx1 vy1 vx2 vy2 r : K)
    (hp1 : b1.position = .ofK x1 y1) (hp2 : b2.position = .ofK x2 y2)
    (hv1 : b1.velocity = .ofK vx1 vy1) (hv2 : b2.velocity = .ofK vx2 vy2)
    (hr1 : b1.radius = .fin r) (hr2 : b2.radius = .fin r)
    (hy : y1 = y2) (hvy1 : vy1 = 0) (hvy2 : vy2 = 0)
    (hr : r ≠ 0) (hpi : 0 < m.PI) (hne : x1 ≠ x2)
    (hsqrt : m.sqrt ((x1 - x2) * (x1 - x2)) * m.sqrt ((x1 - x2) * (x1 - x2))
      = (x1 - x2) * (x1 - x2)) :
    collisionVector m b1 b2 = .ofK vx2 0 := by
  subst hy hvy1 hvy2
  have harg : (x1 - x2) * (x1 - x2) + (y1 - y1) * (y1 - y1) = (x1 - x2) * (x1 - x2) := by ring
  have hd : (x1 - x2) * (x1 - x2) ≠ 0 := mul_ne_zero (sub_ne_zero.mpr hne) (sub_ne_zero.mpr hne)
  have hs : m.sqrt ((x1 - x2) * (x1 - x2)) ≠ 0 := by
    intro h0
    rw [h0, mul_zero] at hsqrt
    exact hd hsqrt.symm
  have hA : 4 * m.PI * (r * r) + 4 * m.PI * (r * r) ≠ 0 := by
    have : 0 < 4 * m.PI * (r * r) := by
      have := mul_self_pos.mpr hr
      positivity
    linarith
  rw [collisionVector_fin m b1 b2 x1 y1 x2 y1 vx1 0 vx2 0 r r hp1 hp2 hv1 hv2 hr1 hr2
    (by rw [harg]; exact hs) hA, harg, hsqrt]
  have hfac : 2 * (4 * m.PI * (r * r)) / (4 * m.PI * (r * r) + 4 * m.PI * (r * r)) = 1 := by
    rw [div_eq_one_iff_eq hA]
    ring
  rw [hfac]
  have hx : x1 - x2 ≠ 0 := sub_ne_zero.mpr hne
  congr 1
  · field_simp
    ring
  · simp

/-- The ball scan of the second of two balls skips the first when its tag is present. -/
theorem Ball.checkBallCollision_pair_tagged (m : JSMath K) (updateId : Nat)
    (this a0 x : Ball K) (htag : (a0.id + updateId) ∈ this.collisions) :
    Ball.checkBallCollision m updateId 1 this [.ball a0, .ball x] = (this, [.ball a0, .ball x]) := by
  unfold Ball.checkBallCollision
  rw [show List.range [Actor.ball a0, Actor.ball x].length = [0, 1] from rfl]
  simp only [List.foldl_cons, List.foldl_nil]
  have h0 : Ball.checkBallCollisionStep m updateId 1 (this, [.ball a0, .ball x]) 0
      = (this, [.ball a0, .ball x]) := by
    simp [Ball.checkBallCollisionStep, htag]
  rw [h0]
  simp [Ball.checkBallCollisionStep]

/-- The method `State.update` on a state of two actors, from the two calls of `update`. -/
theorem State.update_pair [FloorRing K] (m : JSMath K) (s : State K) (time : JSNum K)
    (a0 a1 a0' a1' n0 n1 : Actor K) (acts2 : List (Actor K))
    (hs : s.actors = [a0, a1])
    (h0 : Actor.update m s.display time (s.updateId + 1) 0 a0 [a0, a1] = ([a0', a1'], n0))
    (h1 : Actor.update m s.display time (s.updateId + 1) 1 a1' [a0', a1'] = (acts2, n1)) :
    State.update m s time =
      ({ s with updateId := s.updateId + 1, actors := acts2 }, State.new s.display [n0, n1]) := by
  unfold State.update
  rw [hs, show List.range [a0, a1].length = [0, 1] from rfl]
  simp only [List.foldl_cons, List.foldl_nil]
  have e0 : State.updateStep m s.display time (s.updateId + 1) ([a0, a1], []) 0
      = ([a0', a1'], [n0]) := by
    simp [State.updateStep, h0]
  rw [e0]
  have e1 : State.updateStep m s.display time (s.updateId + 1) ([a0', a1'], [n0]) 1
      = (acts2, [n0, n1]) := by
    simp [State.updateStep, h1]
  rw [e1]

/-! ## Circles -/

theorem JSNum.orDefault_some_fin (a : K) (d : JSNum K) (h : a ≠ 0) :
    JSNum.orDefault (some (.fin a)) d = .fin a := by
  simp [JSNum.orDefault, JSNum.truthy, h]

theorem JSNum.orDefault_some_fin_zero (a : K) :
    JSNum.orDefault (some (.fin a)) (.fin 0) = .fin a := by
  by_cases h : a = 0
  · simp [JSNum.orDefault, JSNum.truthy, h]
  · exact JSNum.orDefault_some_fin a _ h

/-- The gap angles of the circle returned by `Circle.update`, for finite fields. -/
theorem Circle.update_fin (m : JSMath K) (time : JSNum K) (c : Circle K) (s sp dir ρ : K)
    (hs : c.openGapStart = .fin s) (hsp : c.rotationSpeed = .fin sp)
    (hdir : c.rotationDirection = .fin dir) (hρ : c.openAngleRange = .fin ρ)
    (hsp0 : sp ≠ 0) (hdir0 : dir ≠ 0) (hρ0 : ρ ≠ 0) :
    (Circle.update m time c).2.openGapStart
        = .fin (if m.PI * 2 < s + sp * dir then s + sp * dir - m.PI * 2
                else if s + sp * dir < 0 then s + sp * dir + m.PI * 2 else s + sp * dir) ∧
    (Circle.update m time c).2.openGapEnd
        = .fin ((if m.PI * 2 < s + sp * dir then s + sp * dir - m.PI * 2
                else if s + sp * dir < 0 then s + sp * dir + m.PI * 2 else s + sp * dir) + ρ) ∧
    (Circle.update m time c).2.rotationSpeed = .fin sp ∧
    (Circle.update m time c).2.rotationDirection = .fin dir ∧
    (Circle.update m time c).2.openAngleRange = .fin ρ := by
  have hstart : (c.rotate m).openGapStart
      = .fin (if m.PI * 2 < s + sp * dir then s + sp * dir - m.PI * 2
                else if s + sp * dir < 0 then s + sp * dir + m.PI * 2 else s + sp * dir) := by
    simp only [Circle.rotate, hs, hsp, hdir, JSNum.fin_mul_fin, JSNum.fin_add_fin,
      JSNum.gt_fin_fin, JSNum.lt_fin_fin, decide_eq_true_eq, JSNum.fin_sub_fin]
    split_ifs <;> rfl
  simp only [Circle.update, Circle.new, Circle.toConfig]
  rw [hstart]
  have h1 : (c.rotate m).rotationSpeed = .fin sp := hsp
  have h2 : (c.rotate m).rotationDirection = .fin dir := hdir
  have h3 : (c.rotate m).openAngleRange = .fin ρ := hρ
  rw [h1, h2, h3, JSNum.orDefault_some_fin_zero, JSNum.orDefault_some_fin _ _ hsp0,
    JSNum.orDefault_some_fin _ _ hdir0, JSNum.orDefault_some_fin _ _ hρ0]
  exact ⟨rfl, rfl, rfl, rfl, rfl⟩

theorem JSNum.orDefault_fin_ne_zero (x : Option (JSNum K)) (d a : K) (hd : d ≠ 0)
    (h : JSNum.orDefault x (.fin d) = .fin a) : a ≠ 0 := by
  unfold JSNum.orDefault at h
  cases x with
  | none =>
    simp only [JSNum.fin.injEq] at h
    exact h ▸ hd
  | some v =>
    by_cases hv : JSNum.truthy v = true
    · simp only [hv, if_true] at h
      subst h
      simpa [JSNum.truthy] using hv
    · simp only [hv] at h
      simp only [Bool.false_eq_true, if_false, JSNum.fin.injEq] at h
      exact h ▸ hd

/-- The start of the gap stays in the closed turn under repeated updates. -/
theorem Circle.updateN_start_bounds (m : JSMath K) (time : JSNum K) (sp dir ρ : K)
    (hsp0 : sp ≠ 0) (hdir0 : dir ≠ 0) (hρ0 : ρ ≠ 0) (hstep : |sp * dir| < 2 * m.PI) (n : Nat) :
    ∀ (c : Circle K) (s : K), c.openGapStart = .fin s → c.rotationSpeed = .fin sp →
      c.rotationDirection = .fin dir → c.openAngleRange = .fin ρ → 0 ≤ s → s ≤ 2 * m.PI →
      ∃ s', (Circle.updateN m time n c).openGapStart = .fin s' ∧ 0 ≤ s' ∧ s' ≤ 2 * m.PI := by
  induction n with
  | zero =>
    intro c s hs _ _ _ h0 h1
    exact ⟨s, hs, h0, h1⟩
  | succ n ih =>
    intro c s hs hsp hdir hρ h0 h1
    obtain ⟨e1, _, e3, e4, e5⟩ := Circle.update_fin m time c s sp dir ρ hs hsp hdir hρ hsp0 hdir0 hρ0
    have habs := abs_lt.mp hstep
    refine ih (Circle.update m time c).2 _ e1 e3 e4 e5 ?_ ?_
    · split_ifs with ha hb <;> linarith
    · split_ifs with ha hb <;> linarith

theorem mathQ_PI_pos : 0 < mathQ.PI := by norm_num [mathQ]

/-! ## Boundary containment (C1) -/

/-- C1, evaluated where it fails: in the state `[new Ball(), new Ball()]` on the default 800 by
800 display, the two balls share the position `(20, 20)`, the look-ahead test resolves the pair,
`collisionVector` divides `0` by `0`, and the ball returned by `Ball.update` for the first ball
has the position `(NaN, NaN)`: neither `radius <= position.x` nor `position.x <= width - radius`
holds, and likewise on the other axis, although `2 * radius <= width`. -/
theorem C1_update_position_nan_for_coincident_balls :
    defaultBall.radius = .fin 10 ∧ display800 = ⟨.fin 800, .fin 800⟩ ∧
    (Ball.update mathQ display800 (.fin 0) 1 0 defaultBall
      [.ball defaultBall, .ball defaultBall]).2.position = ⟨.nan, .nan⟩ ∧
    JSNum.le defaultBall.radius (Ball.update mathQ display800 (.fin 0) 1 0 defaultBall
      [.ball defaultBall, .ball defaultBall]).2.position.x = false ∧
    JSNum.le (Ball.update mathQ display800 (.fin 0) 1 0 defaultBall
      [.ball defaultBall, .ball defaultBall]).2.position.x
        (display800.width - defaultBall.radius) = false := by
  have hpos : (Ball.update mathQ display800 (.fin 0) 1 0 defaultBall
      [.ball defaultBall, .ball defaultBall]).2.position = ⟨.nan, .nan⟩ := by
    refine Ball.update_coincident mathQ display800 (.fin 0) 1 defaultBall defaultBall
      800 800 20 20 (3 / 4) (3 / 2) (3 / 4) (3 / 2) 10 (0 * (mathQ.PI * (10 * 10)))
      (5 / 100000 * (mathQ.PI * (10 * 10))) rfl rfl rfl rfl rfl rfl rfl mathQ_sqrt_zero
      (by simp [defaultBall, Ball.new]) ?_
    rw [Ball.reflectWalls_fin 800 800 20 20 (3 / 4) (3 / 2) 10 (0 * (mathQ.PI * (10 * 10)))
      (5 / 100000 * (mathQ.PI * (10 * 10))) defaultBall display800 rfl rfl rfl rfl rfl]
    simp only [defaultBall, Ball.new, objOrDefault, JSNum.orDefault, Vector.ofK, Vector.add,
      Vector.subtract, Vector.magnitude, JSNum.fin_add_fin, JSNum.fin_sub_fin, JSNum.sq_fin,
      JSMath.sqrtNum]
    have hc : ¬ ((800 : ℚ) - 10 ≤ 20 ∨ (20 : ℚ) ≤ 0 + 10) := by norm_num
    simp only [hc, if_false]
    have harg : ((20 + (3 / 4 + 0 * (mathQ.PI * (10 * 10)))) - (20 + 3 / 4 : ℚ)) *
          ((20 + (3 / 4 + 0 * (mathQ.PI * (10 * 10)))) - (20 + 3 / 4)) +
        ((20 + (3 / 2 + 5 / 100000 * (mathQ.PI * (10 * 10)))) - (20 + 3 / 2)) *
          ((20 + (3 / 2 + 5 / 100000 * (mathQ.PI * (10 * 10)))) - (20 + 3 / 2))
        = (5 / 100000 * (mathQ.PI * (10 * 10))) * (5 / 100000 * (mathQ.PI * (10 * 10))) := by
      ring
    have hs : mathQ.sqrt ((5 / 100000 * (mathQ.PI * (10 * 10))) *
        (5 / 100000 * (mathQ.PI * (10 * 10)))) = |5 / 100000 * (mathQ.PI * (10 * 10))| :=
      Rat.sqrt_eq _
    rw [harg, hs, if_neg (not_lt.mpr (mul_self_nonneg _))]
    simp only [JSNum.le_fin_fin, decide_eq_true_eq]
    norm_num [mathQ, abs_le]
  refine ⟨rfl, rfl, hpos, ?_, ?_⟩
  · rw [hpos]
    exact JSNum.le_nan_right _
  · rw [hpos]
    exact JSNum.le_nan_left _

/-! ## Elastic collision energy (C2) -/

/-- C2: for two balls of equal non-zero radius `r` with finite fields whose positions differ,
with `Math.PI` positive and `Math.sqrt` exact at the squared distance of the two centres, the
velocities `v1' = collisionVector(b1, b2)` and `v2' = collisionVector(b2, b1)`, both computed from
the pre-collision pair, preserve the total kinetic energy
`|v1'|^2 * area + |v2'|^2 * area = |v1|^2 * area + |v2|^2 * area`, where `area` is `sphereArea`
and `|v|^2` is `v.dotProduct(v)`; the common value is the finite number
`(vx1^2 + vy1^2) * 4 PI r^2 + (vx2^2 + vy2^2) * 4 PI r^2`. -/
theorem C2_elastic_energy_equal_radius (m : JSMath K) (b1 b2 : Ball K)
    (x1 y1 x2 y2 vx1 vy1 vx2 vy2 r : K)
    (hp1 : b1.position = .ofK x1 y1) (hp2 : b2.position = .ofK x2 y2)
    (hv1 : b1.velocity = .ofK vx1 vy1) (hv2 : b2.velocity = .ofK vx2 vy2)
    (hr1 : b1.radius = .fin r) (hr2 : b2.radius = .fin r)
    (hr : r ≠ 0) (hpi : 0 < m.PI) (hne : x1 ≠ x2 ∨ y1 ≠ y2)
    (hsqrt : m.sqrt ((x1 - x2) * (x1 - x2) + (y1 - y2) * (y1 - y2)) *
        m.sqrt ((x1 - x2) * (x1 - x2) + (y1 - y2) * (y1 - y2))
      = (x1 - x2) * (x1 - x2) + (y1 - y2) * (y1 - y2)) :
    (collisionVector m b1 b2).dotProduct (collisionVector m b1 b2) * b1.sphereArea m
        + (collisionVector m b2 b1).dotProduct (collisionVector m b2 b1) * b2.sphereArea m
      = b1.velocity.dotProduct b1.velocity * b1.sphereArea m
        + b2.velocity.dotProduct b2.velocity * b2.sphereArea m ∧
    b1.velocity.dotProduct b1.velocity * b1.sphereArea m
        + b2.velocity.dotProduct b2.velocity * b2.sphereArea m
      = .fin ((vx1 * vx1 + vy1 * vy1) * (4 * m.PI * (r * r))
          + (vx2 * vx2 + vy2 * vy2) * (4 * m.PI * (r * r))) := by
  have hd := sqDist_pos x1 y1 x2 y2 hne
  have hs : m.sqrt ((x1 - x2) * (x1 - x2) + (y1 - y2) * (y1 - y2)) ≠ 0 := by
    intro h0
    rw [h0, mul_zero] at hsqrt
    exact absurd hsqrt.symm (ne_of_gt hd)
  have hflip : (x2 - x1) * (x2 - x1) + (y2 - y1) * (y2 - y1)
      = (x1 - x2) * (x1 - x2) + (y1 - y2) * (y1 - y2) := by ring
  have hA : 4 * m.PI * (r * r) + 4 * m.PI * (r * r) ≠ 0 := by
    have : 0 < 4 * m.PI * (r * r) := by
      have := mul_self_pos.mpr hr
      positivity
    linarith
  have h12 := collisionVector_fin m b1 b2 x1 y1 x2 y2 vx1 vy1 vx2 vy2 r r hp1 hp2 hv1 hv2 hr1 hr2
    hs hA
  have h21 := collisionVector_fin m b2 b1 x2 y2 x1 y1 vx2 vy2 vx1 vy1 r r hp2 hp1 hv2 hv1 hr2 hr1
    (by rw [hflip]; exact hs) hA
  rw [hflip] at h21
  rw [hsqrt] at h12 h21
  have hfac : 2 * (4 * m.PI * (r * r)) / (4 * m.PI * (r * r) + 4 * m.PI * (r * r)) = 1 := by
    rw [div_eq_one_iff_eq hA]
    ring
  rw [hfac, mul_one, mul_one] at h12 h21
  have hnum : (vx2 - vx1) * (x2 - x1) + (vy2 - vy1) * (y2 - y1)
      = (vx1 - vx2) * (x1 - x2) + (vy1 - vy2) * (y1 - y2) := by ring
  rw [hnum] at h21
  have hc : ((vx1 - vx2) * (x1 - x2) + (vy1 - vy2) * (y1 - y2)) /
        ((x1 - x2) * (x1 - x2) + (y1 - y2) * (y1 - y2))
      * ((x1 - x2) * (x1 - x2) + (y1 - y2) * (y1 - y2))
      = (vx1 - vx2) * (x1 - x2) + (vy1 - vy2) * (y1 - y2) :=
    div_mul_cancel₀ _ (ne_of_gt hd)
  generalize ((vx1 - vx2) * (x1 - x2) + (vy1 - vy2) * (y1 - y2)) /
        ((x1 - x2) * (x1 - x2) + (y1 - y2) * (y1 - y2)) = c at h12 h21 hc
  rw [h12, h21]
  simp only [hv1, hv2, hr1, hr2, Vector.ofK, Vector.dotProduct, Ball.sphereArea,
    JSNum.fin_mul_fin, JSNum.fin_add_fin, JSNum.sq_fin, and_true]
  congr 1
  linear_combination (8 * c * m.PI * (r * r)) * hc

/-- C2 at two balls of radius 10 at `(100, 100)` and `(103, 104)` with velocities `(1, 0)` and
`(-1, 2)`. -/
theorem C2_elastic_energy_equal_radius_witness :
    (collisionVector mathQ energyBallA energyBallB).dotProduct
          (collisionVector mathQ energyBallA energyBallB) * energyBallA.sphereArea mathQ
        + (collisionVector mathQ energyBallB energyBallA).dotProduct
          (collisionVector mathQ energyBallB energyBallA) * energyBallB.sphereArea mathQ
      = energyBallA.velocity.dotProduct energyBallA.velocity * energyBallA.sphereArea mathQ
        + energyBallB.velocity.dotProduct energyBallB.velocity * energyBallB.sphereArea mathQ :=
  (C2_elastic_energy_equal_radius mathQ energyBallA energyBallB 100 100 103 104 1 0 (-1) 2 10
    rfl rfl rfl rfl rfl rfl (by norm_num) mathQ_PI_pos (Or.inl (by norm_num))
    (by
      have h : ((100 : ℚ) - 103) * (100 - 103) + (100 - 104) * (100 - 104) = 5 * 5 := by norm_num
      rw [h]
      show Rat.sqrt (5 * 5) * Rat.sqrt (5 * 5) = 5 * 5
      rw [Rat.sqrt_eq]
      norm_num)).1

/-! ## Gap transparency (C3) -/

/-- C3: for every ball and every hollow circle, if the normalised angle of the ball relative to
the centre of the circle satisfies `openGapStart <= angle <= openGapEnd`, then the iteration of
`checkHollowCircleCollision` for that circle leaves the ball unchanged (its velocity and its
collision tags), whatever the distance to the centre; so does the whole scan of a state in which
every other actor is a ball. -/
theorem C3_gap_transparency [FloorRing K] (m : JSMath K) (updateId : Nat) (this : Ball K)
    (circle : Circle K) (others : List (Actor K))
    (hstart : JSNum.ge (normalizedAngle m this circle) circle.openGapStart = true)
    (hend : JSNum.le (normalizedAngle m this circle) circle.openGapEnd = true)
    (hothers : ∀ a ∈ others, ∃ b, a = .ball b) :
    Ball.checkHollowCircleCollisionStep m updateId this (.circle circle) = this ∧
    Ball.checkHollowCircleCollision m updateId this (.circle circle :: others) = this := by
  have hstep : Ball.checkHollowCircleCollisionStep m updateId this (.circle circle) = this := by
    simp [Ball.checkHollowCircleCollisionStep, inOpenGap, hstart, hend]
  refine ⟨hstep, ?_⟩
  have hrest := Ball.checkHollowCircleCollision_no_circle m updateId this others hothers
  simp only [Ball.checkHollowCircleCollision, List.foldl_cons, hstep] at hrest ⊢
  exact hrest

/-- C3 at a ball at `(100, 0)`, at distance 100 from the centre of the default circle of radius
100, whose gap runs from `0` to a quarter turn: the angle of the ball is `0`. -/
theorem C3_gap_transparency_witness :
    Ball.checkHollowCircleCollisionStep mathQ 1 gapBall (.circle defaultCircle) = gapBall ∧
    Ball.checkHollowCircleCollision mathQ 1 gapBall [.circle defaultCircle, .ball gapBall]
      = gapBall := by
  have hangle : normalizedAngle mathQ gapBall defaultCircle = .fin 0 := by
    have hpi := mathQ_PI_pos
    have h2 : (2 : ℚ) * mathQ.PI ≠ 0 := by positivity
    simp only [normalizedAngle, gapBall, defaultCircle, Ball.new, Circle.new, objOrDefault,
      Vector.ofK, JSNum.fin_sub_fin, JSMath.atan2Num, JSNum.fin_add_fin, JSNum.fin_mul_fin,
      JSNum.fmod, if_neg h2]
    have hat : mathQ.atan2 (0 - 0) (100 - 0) = 0 := by norm_num [mathQ, atan2Q]
    rw [hat, zero_add, div_self h2]
    norm_num
  exact C3_gap_transparency mathQ 1 gapBall defaultCircle [.ball gapBall]
    (by rw [hangle]; simp [defaultCircle, Circle.new, JSNum.orDefault])
    (by
      rw [hangle]
      have hpi := mathQ_PI_pos
      have h2 : (2 : ℚ) ≠ 0 := by norm_num
      simp only [defaultCircle, Circle.new, JSNum.orDefault, JSNum.fin_div_fin _ _ h2,
        JSNum.fin_add_fin, JSNum.le_fin_fin, decide_eq_true_eq]
      positivity)
    (by simp)

/-! ## Rotation of the gap (C4) -/

/-- C4, amended: starting from a circle built by the constructor with `openGapStart` in
`[0, 2 PI)`, `openAngleRange` in `(0, 2 PI)` and `|rotationSpeed * rotationDirection| < 2 PI`,
after any number `n >= 1` of successive `Circle.update` calls the resulting circle has its
`openGapStart` in the closed interval `[0, 2 PI]`. -/
theorem C4_gap_start_stays_in_closed_turn (m : JSMath K) (time : JSNum K)
    (config : CircleConfig K) (s sp dir ρ : K)
    (hs : (Circle.new m config).openGapStart = .fin s)
    (hsp : (Circle.new m config).rotationSpeed = .fin sp)
    (hdir : (Circle.new m config).rotationDirection = .fin dir)
    (hρ : (Circle.new m config).openAngleRange = .fin ρ)
    (hs0 : 0 ≤ s) (hs1 : s < 2 * m.PI) (hρ0 : 0 < ρ) (_hρ1 : ρ < 2 * m.PI)
    (hstep : |sp * dir| < 2 * m.PI) (n : Nat) (_hn : 1 ≤ n) :
    ∃ s', (Circle.updateN m time n (Circle.new m config)).openGapStart = .fin s' ∧
      0 ≤ s' ∧ s' ≤ 2 * m.PI := by
  have hsp0 : sp ≠ 0 := JSNum.orDefault_fin_ne_zero _ _ _ (by norm_num) hsp
  have hdir0 : dir ≠ 0 := JSNum.orDefault_fin_ne_zero _ _ _ (by norm_num) hdir
  exact Circle.updateN_start_bounds m time sp dir ρ hsp0 hdir0 (ne_of_gt hρ0) hstep n _ s hs hsp hdir
    hρ hs0 (le_of_lt hs1)

/-- The amended C4 at `circle2` of `startGame`, after three updates. -/
theorem C4_gap_start_stays_in_closed_turn_witness :
    ∃ s', (Circle.updateN mathQ (.fin 0) 3 (Circle.new mathQ circle2Config)).openGapStart
        = .fin s' ∧ 0 ≤ s' ∧ s' ≤ 2 * mathQ.PI := by
  have hpi := mathQ_PI_pos
  have h4 : (4 : ℚ) ≠ 0 := by norm_num
  have hstart : (3 / 2 : ℚ) * mathQ.PI ≠ 0 := by positivity
  have hrange : mathQ.PI / 4 ≠ 0 := by positivity
  exact C4_gap_start_stays_in_closed_turn mathQ (.fin 0) circle2Config
    (3 / 2 * mathQ.PI) (3 / 1000) 1 (mathQ.PI / 4)
    (by simp [Circle.new, circle2Config, JSNum.orDefault, JSNum.truthy, hstart])
    (by simp [Circle.new, circle2Config, JSNum.orDefault])
    (by simp [Circle.new, circle2Config, JSNum.orDefault])
    (by simp [Circle.new, circle2Config, JSNum.orDefault, JSNum.truthy, JSNum.fin_div_fin _ _ h4,
      hrange])
    (by positivity) (by linarith) (by positivity) (by linarith)
    (by rw [mul_one, abs_of_pos (by norm_num)]; norm_num [mathQ]) 3 (by norm_num)

/-- C4 as stated fails: the circle built from `openGapStart = PI`, `openAngleRange = PI`,
`rotationSpeed = PI` and the default direction `1` meets the three conditions of the claim; after
one `Circle.update` its `openGapStart` is `2 PI` (the test `openGapStart > 2 PI` is strict) and
its `openGapEnd`, recomputed by the constructor as `openGapStart + openAngleRange`, is `3 PI`.
Neither is below `2 PI`. -/
theorem C4_counterexample_half_turn :
    halfTurnCircle.openGapStart = .fin mathQ.PI ∧
    halfTurnCircle.openAngleRange = .fin mathQ.PI ∧
    halfTurnCircle.rotationSpeed = .fin mathQ.PI ∧
    halfTurnCircle.rotationDirection = .fin 1 ∧
    (0 ≤ mathQ.PI ∧ mathQ.PI < 2 * mathQ.PI) ∧ |mathQ.PI * 1| < 2 * mathQ.PI ∧
    (Circle.updateN mathQ (.fin 0) 1 halfTurnCircle).openGapStart = .fin (2 * mathQ.PI) ∧
    (Circle.updateN mathQ (.fin 0) 1 halfTurnCircle).openGapEnd = .fin (3 * mathQ.PI) ∧
    JSNum.lt (Circle.updateN mathQ (.fin 0) 1 halfTurnCircle).openGapStart
      (.fin (2 * mathQ.PI)) = false ∧
    JSNum.lt (Circle.updateN mathQ (.fin 0) 1 halfTurnCircle).openGapEnd
      (.fin (2 * mathQ.PI)) = false := by
  have hpi := mathQ_PI_pos
  have hpi0 : mathQ.PI ≠ 0 := ne_of_gt hpi
  have h1 : halfTurnCircle.openGapStart = .fin mathQ.PI := by
    simp [halfTurnCircle, Circle.new, JSNum.orDefault, JSNum.truthy, hpi0]
  have h2 : halfTurnCircle.openAngleRange = .fin mathQ.PI := by
    simp [halfTurnCircle, Circle.new, JSNum.orDefault, JSNum.truthy, hpi0]
  have h3 : halfTurnCircle.rotationSpeed = .fin mathQ.PI := by
    simp [halfTurnCircle, Circle.new, JSNum.orDefault, JSNum.truthy, hpi0]
  have h4 : halfTurnCircle.rotationDirection = .fin 1 := by
    simp [halfTurnCircle, Circle.new, JSNum.orDefault, JSNum.truthy]
  obtain ⟨e1, e2, _, _, _⟩ := Circle.update_fin mathQ (.fin 0) halfTurnCircle mathQ.PI mathQ.PI 1
    mathQ.PI h1 h3 h4 h2 hpi0 one_ne_zero hpi0
  have hnot1 : ¬ (mathQ.PI * 2 < mathQ.PI + mathQ.PI * 1) := by
    rw [mul_one]; intro h; linarith
  have hnot2 : ¬ (mathQ.PI + mathQ.PI * 1 < 0) := by
    rw [mul_one]; intro h; linarith
  rw [if_neg hnot1, if_neg hnot2] at e1 e2
  have hs : (Circle.updateN mathQ (.fin 0) 1 halfTurnCircle).openGapStart
      = .fin (2 * mathQ.PI) := by
    show (Circle.update mathQ (.fin 0) halfTurnCircle).2.openGapStart = _
    rw [e1]; congr 1; ring
  have he : (Circle.updateN mathQ (.fin 0) 1 halfTurnCircle).openGapEnd
      = .fin (3 * mathQ.PI) := by
    show (Circle.update mathQ (.fin 0) halfTurnCircle).2.openGapEnd = _
    rw [e2]; congr 1; ring
  refine ⟨h1, h2, h3, h4, ⟨le_of_lt hpi, by linarith⟩, by rw [mul_one, abs_of_pos hpi]; linarith,
    hs, he, ?_, ?_⟩
  · rw [hs]; simp
  · rw [he]; simp only [JSNum.lt_fin_fin, decide_eq_false_iff_not, not_lt]; linarith

/-! ## Reflection at the side walls (C5) -/

/-- C5: for every ball with finite fields whose `position.x <= r` or `position.x >= W - r`, with
`2 r <= W`, in a state that holds no other actor, the ball returned by `Ball.update` has
`velocity.x = -(velocity.x + gravityForce.x)` and `position.x` equal to
`max(min(position.x - (velocity.x + gravityForce.x), W - r), r)`, which lies in `[r, W - r]`. -/
theorem C5_wall_reflection_x [FloorRing K] (m : JSMath K) (display : Canvas K) (time : JSNum K)
    (updateId : Nat) (b : Ball K) (W H px py vx vy r gx gy : K)
    (hd : display = ⟨.fin W, .fin H⟩)
    (hp : b.position = .ofK px py) (hv : b.velocity = .ofK vx vy) (hr : b.radius = .fin r)
    (hg : b.gravityForce = .ofK gx gy)
    (hwall : px ≤ r ∨ W - r ≤ px) (hfit : 2 * r ≤ W) :
    (Ball.update m display time updateId 0 b [.ball b]).2.velocity.x = .fin (-(vx + gx)) ∧
    (Ball.update m display time updateId 0 b [.ball b]).2.position.x
      = .fin (max (min (px + -(vx + gx)) (W - r)) r) ∧
    r ≤ max (min (px + -(vx + gx)) (W - r)) r ∧
    max (min (px + -(vx + gx)) (W - r)) r ≤ W - r := by
  have hrw := Ball.reflectWalls_fin W H px py vx vy r gx gy b display hd hp hv hr hg
  have hc : W - r ≤ px ∨ px ≤ 0 + r := by
    rcases hwall with h | h
    · right; simpa using h
    · left; exact h
  rw [if_pos hc] at hrw
  rw [Ball.update_alone m display time updateId b _ hrw]
  refine ⟨rfl, ?_, le_max_right _ _, max_le (min_le_right _ _) (by linarith)⟩
  subst hd
  simp [Ball.new_toConfig_position, hp, hr, Vector.ofK, Ball.upperLimit, Ball.lowerLimit]

/-- C5 at the ball at `(5, 400)` with velocity `(-1, 0)` and radius 10 on the 800 wide display:
the returned ball has `velocity.x = 1` and `position.x = 10`. -/
theorem C5_wall_reflection_x_witness :
    (Ball.update mathQ display800 (.fin 0) 1 0 leftWallBall [.ball leftWallBall]).2.velocity.x
      = .fin 1 ∧
    (Ball.update mathQ display800 (.fin 0) 1 0 leftWallBall [.ball leftWallBall]).2.position.x
      = .fin 10 := by
  have h := C5_wall_reflection_x mathQ display800 (.fin 0) 1 leftWallBall 800 800 5 400 (-1) 0 10
    (0 * (mathQ.PI * (10 * 10))) (5 / 100000 * (mathQ.PI * (10 * 10)))
    rfl rfl rfl rfl rfl (by norm_num) (by norm_num)
  refine ⟨?_, ?_⟩
  · rw [h.1]; norm_num
  · rw [h.2.1]; norm_num

/-! ## Free flight (C7) -/

/-- C7: for every ball with finite fields strictly inside the wall range on both axes, in a
state that holds no other actor, `Ball.update` returns a ball with
`velocity = velocity + gravityForce` and
`position = clamp(position + velocity + gravityForce)` into `[r, W - r] x [r, H - r]`. -/
theorem C7_free_flight_step [FloorRing K] (m : JSMath K) (display : Canvas K) (time : JSNum K)
    (updateId : Nat) (b : Ball K) (W H px py vx vy r gx gy : K)
    (hd : display = ⟨.fin W, .fin H⟩)
    (hp : b.position = .ofK px py) (hv : b.velocity = .ofK vx vy) (hr : b.radius = .fin r)
    (hg : b.gravityForce = .ofK gx gy)
    (hx : r < px ∧ px < W - r) (hy : r < py ∧ py < H - r) :
    (Ball.update m display time updateId 0 b [.ball b]).2.velocity = .ofK (vx + gx) (vy + gy) ∧
    (Ball.update m display time updateId 0 b [.ball b]).2.position
      = .ofK (max (min (px + vx + gx) (W - r)) r) (max (min (py + vy + gy) (H - r)) r) := by
  have hrw := Ball.reflectWalls_fin W H px py vx vy r gx gy b display hd hp hv hr hg
  have hcx : ¬ (W - r ≤ px ∨ px ≤ 0 + r) := by
    rw [zero_add]; push_neg; exact ⟨hx.2, hx.1⟩
  have hcy : ¬ (H - r ≤ py ∨ py ≤ 0 + r) := by
    rw [zero_add]; push_neg; exact ⟨hy.2, hy.1⟩
  rw [if_neg hcx, if_neg hcy] at hrw
  rw [Ball.update_alone m display time updateId b _ hrw]
  refine ⟨rfl, ?_⟩
  subst hd
  simp [Ball.new_toConfig_position, hp, hr, Vector.ofK, Ball.upperLimit, Ball.lowerLimit, add_assoc]

/-- C7 at the ball at `(400, 400)` with velocity `(0, 0)`, radius 10 and no gravity on the 800 by
800 display: the returned ball keeps its position and its velocity. -/
theorem C7_free_flight_step_witness :
    (Ball.update mathQ display800 (.fin 1) 1 0 restingBall [.ball restingBall]).2.velocity
      = .ofK 0 0 ∧
    (Ball.update mathQ display800 (.fin 1) 1 0 restingBall [.ball restingBall]).2.position
      = .ofK 400 400 := by
  have h := C7_free_flight_step mathQ display800 (.fin 1) 1 restingBall 800 800 400 400 0 0 10 0 0
    rfl rfl rfl rfl rfl (by norm_num) (by norm_num)
  refine ⟨?_, ?_⟩
  · rw [h.1]; norm_num
  · rw [h.2]; norm_num

/-! ## Head-on collision of two equal balls (C6) -/

/-- C6: for every state that consists of exactly two balls of equal radius `r > 0` with finite
fields, both with zero `gravityForce` and strictly inside the wall range, whose centres lie on a
common horizontal line at distinct positions, whose velocities are `(a, 0)` and `(b, 0)`, whose
predicted next-tick distance is `<= 2 r`, and whose first ball does not yet carry the collision
tag of this tick (no ball built by the constructor does), one `State.update` returns a state in
which the first ball has velocity `(b, 0)` and the second has velocity `(a, 0)`.  `Math.PI` is
positive and `Math.sqrt` is exact at the squared distance of the two centres. -/
theorem C6_head_on_equal_mass_swap [FloorRing K] (m : JSMath K) (s : State K) (time : JSNum K)
    (b1 b2 : Ball K) (W H x1 x2 y a b r : K)
    (hs : s.actors = [.ball b1, .ball b2]) (hd : s.display = ⟨.fin W, .fin H⟩)
    (hp1 : b1.position = .ofK x1 y) (hp2 : b2.position = .ofK x2 y)
    (hv1 : b1.velocity = .ofK a 0) (hv2 : b2.velocity = .ofK b 0)
    (hr1 : b1.radius = .fin r) (hr2 : b2.radius = .fin r)
    (hg1 : b1.gravityForce = .ofK 0 0) (hg2 : b2.gravityForce = .ofK 0 0)
    (hin1 : r < x1 ∧ x1 < W - r) (hin2 : r < x2 ∧ x2 < W - r) (hiny : r < y ∧ y < H - r)
    (hne : x1 ≠ x2) (hr : 0 < r) (hpi : 0 < m.PI)
    (hsqrt : m.sqrt ((x1 - x2) * (x1 - x2)) * m.sqrt ((x1 - x2) * (x1 - x2))
      = (x1 - x2) * (x1 - x2))
    (hnear : JSNum.le
      (((b1.position.add b1.velocity).subtract (b2.position.add b2.velocity)).magnitude m)
      (b1.radius + b2.radius) = true)
    (htag : (b2.id + (s.updateId + 1)) ∉ b1.collisions) :
    ∃ n1 n2 : Ball K, (State.update m s time).2.actors = [.ball n1, .ball n2] ∧
      n1.velocity = .ofK b 0 ∧ n2.velocity = .ofK a 0 := by
  have hcx1 : ¬ (W - r ≤ x1 ∨ x1 ≤ 0 + r) := by
    rw [zero_add]; push_neg; exact ⟨hin1.2, hin1.1⟩
  have hcx2 : ¬ (W - r ≤ x2 ∨ x2 ≤ 0 + r) := by
    rw [zero_add]; push_neg; exact ⟨hin2.2, hin2.1⟩
  have hcy : ¬ (H - r ≤ y ∨ y ≤ 0 + r) := by
    rw [zero_add]; push_neg; exact ⟨hiny.2, hiny.1⟩
  -- the first ball after gravity and the wall tests
  have hrw1 := Ball.reflectWalls_fin W H x1 y a 0 r 0 0 b1 s.display hd hp1 hv1 hr1 hg1
  rw [if_neg hcx1, if_neg hcy, add_zero, add_zero] at hrw1
  have hb1 : ({ b1 with velocity := Vector.ofK a 0 } : Ball K) = b1 := by
    rw [← hv1]
  rw [hb1] at hrw1
  -- its ball scan resolves the pair
  have hscan1 := Ball.checkBallCollision_pair_resolved m (s.updateId + 1) b1 b1 b2 htag hnear
  have hsqrt' : m.sqrt ((x2 - x1) * (x2 - x1)) * m.sqrt ((x2 - x1) * (x2 - x1))
      = (x2 - x1) * (x2 - x1) := by
    have e : (x2 - x1) * (x2 - x1) = (x1 - x2) * (x1 - x2) := by ring
    rw [e]; exact hsqrt
  have hcv1 := collisionVector_head_on m b1 b2 x1 y x2 y a 0 b 0 r hp1 hp2 hv1 hv2 hr1 hr2
    rfl rfl rfl (ne_of_gt hr) hpi hne hsqrt
  have hcv2 := collisionVector_head_on m b2 b1 x2 y x1 y b 0 a 0 r hp2 hp1 hv2 hv1 hr2 hr1
    rfl rfl rfl (ne_of_gt hr) hpi (Ne.symm hne) hsqrt'
  rw [hcv1, hcv2] at hscan1
  have hup1 := Ball.update_of_scan m s.display time (s.updateId + 1) 0 b1 _ _ _ _
    ((congrArg (fun t => Ball.checkBallCollision m (s.updateId + 1) 0 t
      [Actor.ball b1, Actor.ball b2]) hrw1).trans hscan1)
    (Ball.checkHollowCircleCollision_no_circle m (s.updateId + 1) _ _ (by simp))
  simp only [List.set_cons_zero] at hup1
  -- the second ball, as the first call left it
  have hrw2 := Ball.reflectWalls_fin W H x2 y a 0 r 0 0
    { b2 with velocity := Vector.ofK a 0,
              collisions := b2.collisions ++ [b1.id + (s.updateId + 1)] }
    s.display hd hp2 rfl hr2 hg2
  rw [if_neg hcx2, if_neg hcy, add_zero, add_zero] at hrw2
  have hscan2 := Ball.checkBallCollision_pair_tagged m (s.updateId + 1)
    { b2 with velocity := Vector.ofK a 0,
              collisions := b2.collisions ++ [b1.id + (s.updateId + 1)] }
    { b1 with velocity := Vector.ofK b 0,
              collisions := b1.collisions ++ [b2.id + (s.updateId + 1)] }
    { b2 with velocity := Vector.ofK a 0,
              collisions := b2.collisions ++ [b1.id + (s.updateId + 1)] }
    (by simp)
  have hup2 := Ball.update_of_scan m s.display time (s.updateId + 1) 1
    { b2 with velocity := Vector.ofK a 0,
              collisions := b2.collisions ++ [b1.id + (s.updateId + 1)] } _ _ _ _
    ((congrArg (fun t => Ball.checkBallCollision m (s.updateId + 1) 1 t
      [Actor.ball { b1 with velocity := Vector.ofK b 0,
                            collisions := b1.collisions ++ [b2.id + (s.updateId + 1)] },
       Actor.ball { b2 with velocity := Vector.ofK a 0,
                            collisions := b2.collisions ++ [b1.id + (s.updateId + 1)] }])
      hrw2).trans hscan2)
    (Ball.checkHollowCircleCollision_no_circle m (s.updateId + 1) _ _ (by simp))
  have hupd := State.update_pair m s time (.ball b1) (.ball b2) _ _ _ _ _ hs
    (by simp only [Actor.update]; rw [hup1])
    (by simp only [Actor.update]; rw [hup2])
  rw [hupd]
  exact ⟨_, _, rfl, rfl, rfl⟩

/-- C6 at the head-on scenario: two balls of radius 10 at `(100, 100)` and `(121, 100)` with
velocities `(1, 0)` and `(-1, 0)`; the predicted distance is 19. -/
theorem C6_head_on_equal_mass_swap_witness :
    ∃ n1 n2 : Ball ℚ, (State.update mathQ headOnState (.fin 0)).2.actors = [.ball n1, .ball n2] ∧
      n1.velocity = .ofK (-1) 0 ∧ n2.velocity = .ofK 1 0 := by
  refine C6_head_on_equal_mass_swap mathQ headOnState (.fin 0) headOnLeft headOnRight
    800 800 100 121 100 1 (-1) 10 rfl rfl rfl rfl rfl rfl rfl rfl rfl rfl
    (by norm_num) (by norm_num) (by norm_num) (by norm_num) (by norm_num) mathQ_PI_pos ?_ ?_
    (by simp [headOnLeft, Ball.new])
  · have h : ((100 : ℚ) - 121) * (100 - 121) = 21 * 21 := by norm_num
    rw [h]
    show Rat.sqrt (21 * 21) * Rat.sqrt (21 * 21) = 21 * 21
    rw [Rat.sqrt_eq]
    norm_num
  · simp only [headOnLeft, headOnRight, Ball.new, objOrDefault, JSNum.orDefault, Vector.ofK,
      Vector.add, Vector.subtract, Vector.magnitude, JSNum.fin_add_fin, JSNum.fin_sub_fin,
      JSNum.sq_fin, JSMath.sqrtNum]
    have h : ((100 : ℚ) + 1 - (121 + -1)) * (100 + 1 - (121 + -1))
        + (100 + 0 - (100 + 0)) * (100 + 0 - (100 + 0)) = 19 * 19 := by norm_num
    rw [h]
    have hs : mathQ.sqrt (19 * 19) = 19 := by
      show Rat.sqrt (19 * 19) = 19
      rw [Rat.sqrt_eq]
      norm_num
    rw [hs]
    norm_num [JSNum.truthy]

/-! ## What `State.update` does to its receiver (C8) -/

theorem map_set_of_same {α β : Type} (f : α → β) (l : List α) (i : Nat) (x : α)
    (h : ∀ a, l[i]? = some a → f a = f x) : (l.set i x).map f = l.map f := by
  induction l generalizing i with
  | nil => rfl
  | cons a rest ih =>
    cases i with
    | zero =>
      simp only [List.set_cons_zero, List.map_cons]
      rw [h a (by simp)]
    | succ i =>
      simp only [List.set_cons_succ, List.map_cons]
      rw [ih i (fun b hb => h b (by simpa using hb))]

theorem foldl_invariant {α β : Type} (P : α → Prop) (f : α → β → α) (l : List β) (a : α)
    (h0 : P a) (hstep : ∀ a b, P a → P (f a b)) : P (l.foldl f a) := by
  induction l generalizing a with
  | nil => exact h0
  | cons b rest ih => exact ih (f a b) (hstep a b h0)

/-- One iteration of the ball scan keeps the fixed part of `this` and of every actor. -/
theorem Ball.checkBallCollisionStep_fixedPart (m : JSMath K) (updateId i : Nat)
    (st : Ball K × List (Actor K)) (j : Nat) :
    (Ball.checkBallCollisionStep m updateId i st j).1.fixedPart = st.1.fixedPart ∧
    (Ball.checkBallCollisionStep m updateId i st j).2.map Actor.fixedPart
      = st.2.map Actor.fixedPart := by
  unfold Ball.checkBallCollisionStep
  split
  · rename_i actor hj
    by_cases hskip : i = j ∨ (actor.id + updateId) ∈ st.1.collisions
    · rw [if_pos hskip]
      exact ⟨rfl, rfl⟩
    · rw [if_neg hskip]
      by_cases hnear : JSNum.le (((st.1.position.add st.1.velocity).subtract
          (actor.position.add actor.velocity)).magnitude m) (st.1.radius + actor.radius) = true
      · simp only [hnear, if_true]
        refine ⟨rfl, ?_⟩
        apply map_set_of_same
        intro a ha
        rw [hj] at ha
        cases ha
        rfl
      · simp only [hnear]
        exact ⟨rfl, rfl⟩
  · exact ⟨rfl, rfl⟩

theorem Ball.checkBallCollision_fixedPart (m : JSMath K) (updateId i : Nat)
    (this : Ball K) (actors : List (Actor K)) :
    (Ball.checkBallCollision m updateId i this actors).1.fixedPart = this.fixedPart ∧
    (Ball.checkBallCollision m updateId i this actors).2.map Actor.fixedPart
      = actors.map Actor.fixedPart := by
  unfold Ball.checkBallCollision
  apply foldl_invariant
    (fun st : Ball K × List (Actor K) => st.1.fixedPart = this.fixedPart ∧
      st.2.map Actor.fixedPart = actors.map Actor.fixedPart)
  · exact ⟨rfl, rfl⟩
  · intro st j h
    have hs := Ball.checkBallCollisionStep_fixedPart m updateId i st j
    exact ⟨hs.1.trans h.1, hs.2.trans h.2⟩

theorem Ball.checkHollowCircleCollision_fixedPart [FloorRing K] (m : JSMath K) (updateId : Nat)
    (this : Ball K) (actors : List (Actor K)) :
    (Ball.checkHollowCircleCollision m updateId this actors).fixedPart = this.fixedPart := by
  unfold Ball.checkHollowCircleCollision
  apply foldl_invariant (fun t : Ball K => t.fixedPart = this.fixedPart)
  · rfl
  · intro t a h
    rw [← h]
    unfold Ball.checkHollowCircleCollisionStep
    split
    · dsimp only
      split_ifs
      · rfl
      · rfl
    · rfl

theorem Ball.reflectWalls_fixedPart (u l : Vector K) (this : Ball K) :
    (this.reflectWalls u l).fixedPart = this.fixedPart := by
  unfold Ball.reflectWalls
  dsimp only
  split_ifs <;> rfl

theorem getElem?_of_map_eq {α β : Type} (f : α → β) (l l' : List α) (i : Nat) (a : α)
    (h : l.map f = l'.map f) (ha : l[i]? = some a) : ∃ b, l'[i]? = some b ∧ f b = f a := by
  have h1 : (l.map f)[i]? = some (f a) := by simp [ha]
  rw [h] at h1
  simp only [List.getElem?_map, Option.map_eq_some'] at h1
  exact h1

/-- The call of `update` on the actor at position `i` keeps the fixed part of every actor. -/
theorem Actor.update_fixedPart [FloorRing K] (m : JSMath K) (display : Canvas K) (time : JSNum K)
    (updateId i : Nat) (actor : Actor K) (actors : List (Actor K)) (hi : actors[i]? = some actor) :
    (Actor.update m display time updateId i actor actors).1.map Actor.fixedPart
      = actors.map Actor.fixedPart := by
  cases actor with
  | ball b =>
    simp only [Actor.update, Ball.update]
    have hscan := Ball.checkBallCollision_fixedPart m updateId i
      (b.reflectWalls (Ball.upperLimit display b) (Ball.lowerLimit b)) actors
    have hh := Ball.checkHollowCircleCollision_fixedPart m updateId
      (Ball.checkBallCollision m updateId i
        (b.reflectWalls (Ball.upperLimit display b) (Ball.lowerLimit b)) actors).1
      (Ball.checkBallCollision m updateId i
        (b.reflectWalls (Ball.upperLimit display b) (Ball.lowerLimit b)) actors).2
    rw [← hscan.2]
    apply map_set_of_same
    intro a ha
    obtain ⟨c, hc, hfc⟩ := getElem?_of_map_eq Actor.fixedPart _ _ i a hscan.2 ha
    rw [hi] at hc
    cases hc
    rw [← hfc]
    show Actor.ball _ = Actor.ball _
    rw [hh, hscan.1, Ball.reflectWalls_fixedPart]
  | circle c =>
    simp only [Actor.update]
    apply map_set_of_same
    intro a ha
    rw [hi] at ha
    cases ha
    rfl

/-- The method `State.update` on a state of a single actor, from its call of `update`. -/
theorem State.update_single [FloorRing K] (m : JSMath K) (s : State K) (time : JSNum K)
    (a0 a0' n0 : Actor K)
    (hs : s.actors = [a0])
    (h0 : Actor.update m s.display time (s.updateId + 1) 0 a0 [a0] = ([a0'], n0)) :
    State.update m s time =
      ({ s with updateId := s.updateId + 1, actors := [a0'] }, State.new s.display [n0]) := by
  unfold State.update
  rw [hs, show List.range [a0].length = [0] from rfl]
  simp only [List.foldl_cons, List.foldl_nil]
  have e0 : State.updateStep m s.display time (s.updateId + 1) ([a0], []) 0 = ([a0'], [n0]) := by
    simp [State.updateStep, h0]
  rw [e0]

/-- The update of a state that holds one ball with finite fields strictly inside the walls. -/
theorem State.update_free_ball [FloorRing K] (m : JSMath K) (s : State K) (time : JSNum K)
    (b : Ball K) (W H px py vx vy r gx gy : K)
    (hs : s.actors = [.ball b]) (hd : s.display = ⟨.fin W, .fin H⟩)
    (hp : b.position = .ofK px py) (hv : b.velocity = .ofK vx vy) (hr : b.radius = .fin r)
    (hg : b.gravityForce = .ofK gx gy)
    (hx : r < px ∧ px < W - r) (hy : r < py ∧ py < H - r) :
    (State.update m s time).1 =
      { s with updateId := s.updateId + 1,
               actors := [.ball { b with velocity := Vector.ofK (vx + gx) (vy + gy) }] } ∧
    (State.update m s time).2.actors.map Actor.velocity = [Vector.ofK (vx + gx) (vy + gy)] := by
  have hrw := Ball.reflectWalls_fin W H px py vx vy r gx gy b s.display hd hp hv hr hg
  have hcx : ¬ (W - r ≤ px ∨ px ≤ 0 + r) := by
    rw [zero_add]; push_neg; exact ⟨hx.2, hx.1⟩
  have hcy : ¬ (H - r ≤ py ∨ py ≤ 0 + r) := by
    rw [zero_add]; push_neg; exact ⟨hy.2, hy.1⟩
  rw [if_neg hcx, if_neg hcy] at hrw
  have hup := Ball.update_alone m s.display time (s.updateId + 1) b _ hrw
  have h := State.update_single m s time (.ball b) _ _ hs
    (by simp only [Actor.update]; rw [hup])
  rw [h]
  exact ⟨rfl, rfl⟩

/-- C8, amended: for every state `s`, the call `s.update(dt)` leaves the display of `s`, the
number, order and kind of its actors and every field of every actor other than a ball's
`velocity` and `collisions` and a circle's `openGapStart` and `openGapEnd` unchanged, and it
increments the tick of `s` by one. -/
theorem C8_update_keeps_fixed_part [FloorRing K] (m : JSMath K) (s : State K) (time : JSNum K) :
    (State.update m s time).1.display = s.display ∧
    (State.update m s time).1.updateId = s.updateId + 1 ∧
    (State.update m s time).1.actors.map Actor.fixedPart = s.actors.map Actor.fixedPart := by
  refine ⟨rfl, rfl, ?_⟩
  show ((List.range s.actors.length).foldl
    (State.updateStep m s.display time (s.updateId + 1)) (s.actors, [])).1.map Actor.fixedPart = _
  apply foldl_invariant
    (fun st : List (Actor K) × List (Actor K) =>
      st.1.map Actor.fixedPart = s.actors.map Actor.fixedPart)
  · rfl
  · intro st i h
    unfold State.updateStep
    split
    · rename_i actor hi
      exact (Actor.update_fixedPart m s.display time (s.updateId + 1) i actor st.1 hi).trans h
    · exact h

/-- C8 as stated fails: the state that holds one ball at rest at `(400, 400)` under the gravity
force `(0, 1)` has tick 0 and ball velocity `(0, 0)` before the call; after `update` the same
state has tick 1 and ball velocity `(0, 1)`, and a second `update` on that retained state returns
a ball of velocity `(0, 2)` where the first call returned `(0, 1)`. -/
theorem C8_counterexample_retained_state :
    fallingState.updateId = 0 ∧
    fallingState.actors.map Actor.velocity = [Vector.ofK 0 0] ∧
    (State.update mathQ fallingState (.fin 0)).1.updateId = 1 ∧
    (State.update mathQ fallingState (.fin 0)).1.actors.map Actor.velocity = [Vector.ofK 0 1] ∧
    (State.update mathQ fallingState (.fin 0)).2.actors.map Actor.velocity = [Vector.ofK 0 1] ∧
    (State.update mathQ (State.update mathQ fallingState (.fin 0)).1 (.fin 0)).2.actors.map
      Actor.velocity = [Vector.ofK 0 2] := by
  have h1 := State.update_free_ball mathQ fallingState (.fin 0) fallingBall 800 800 400 400 0 0 10
    0 1 rfl rfl rfl rfl rfl rfl (by norm_num) (by norm_num)
  have h2 := State.update_free_ball mathQ (State.update mathQ fallingState (.fin 0)).1 (.fin 0)
    { fallingBall with velocity := Vector.ofK (0 + 0) (0 + 1) } 800 800 400 400 (0 + 0) (0 + 1) 10
    0 1 (by rw [h1.1]) (by rw [h1.1]; rfl) rfl rfl rfl rfl (by norm_num) (by norm_num)
  refine ⟨rfl, rfl, by rw [h1.1]; rfl, ?_, ?_, ?_⟩
  · rw [h1.1]
    norm_num [Actor.velocity]
  · rw [h1.2]
    norm_num
  · rw [h2.2]
    norm_num

/-! ## Boundary containment when the velocity is a number -/

/-- The clamp of `Ball.update` lands between its limits unless the velocity is NaN. -/
theorem clamp_contained (p lo hi : K) (v : JSNum K) (hv : v ≠ .nan) (h : lo ≤ hi) :
    ∃ X : K, JSNum.max (JSNum.min (.fin p + v) (.fin hi)) (.fin lo) = .fin X ∧ lo ≤ X ∧ X ≤ hi := by
  cases v with
  | fin a =>
    refine ⟨max (min (p + a) hi) lo, by simp, le_max_right _ _, max_le (min_le_right _ _) h⟩
  | pinf =>
    refine ⟨hi, ?_, h, le_refl _⟩
    show JSNum.max (JSNum.min .pinf (.fin hi)) (.fin lo) = .fin hi
    simp only [JSNum.min, JSNum.le, JSNum.max_fin_fin, max_eq_left h, Bool.false_eq_true,
      if_false]
  | ninf =>
    refine ⟨lo, ?_, le_refl _, h⟩
    show JSNum.max (JSNum.min .ninf (.fin hi)) (.fin lo) = .fin lo
    simp [JSNum.min, JSNum.max, JSNum.le]
  | nan => exact absurd rfl hv

/-- The returned position is inside the wall range on both axes whenever the velocity of `this`
after gravity, the wall tests and the two scans is not NaN. -/
theorem Ball.update_contained_of_not_nan [FloorRing K] (m : JSMath K) (display : Canvas K)
    (time : JSNum K) (updateId i : Nat) (this : Ball K) (actors : List (Actor K))
    (W H px py r : K)
    (hd : display = ⟨.fin W, .fin H⟩) (hp : this.position = .ofK px py)
    (hr : this.radius = .fin r) (hW : 2 * r ≤ W) (hH : 2 * r ≤ H)
    (hvx : (Ball.checkHollowCircleCollision m updateId
      (Ball.checkBallCollision m updateId i
        (this.reflectWalls (Ball.upperLimit display this) (Ball.lowerLimit this)) actors).1
      (Ball.checkBallCollision m updateId i
        (this.reflectWalls (Ball.upperLimit display this) (Ball.lowerLimit this)) actors).2).velocity.x
      ≠ .nan)
    (hvy : (Ball.checkHollowCircleCollision m updateId
      (Ball.checkBallCollision m updateId i
        (this.reflectWalls (Ball.upperLimit display this) (Ball.lowerLimit this)) actors).1
      (Ball.checkBallCollision m updateId i
        (this.reflectWalls (Ball.upperLimit display this) (Ball.lowerLimit this)) actors).2).velocity.y
      ≠ .nan) :
    ∃ X Y : K, (Ball.update m display time updateId i this actors).2.position = .ofK X Y ∧
      r ≤ X ∧ X ≤ W - r ∧ r ≤ Y ∧ Y ≤ H - r := by
  have hfix : (Ball.checkHollowCircleCollision m updateId
      (Ball.checkBallCollision m updateId i
        (this.reflectWalls (Ball.upperLimit display this) (Ball.lowerLimit this)) actors).1
      (Ball.checkBallCollision m updateId i
        (this.reflectWalls (Ball.upperLimit display this) (Ball.lowerLimit this)) actors).2).fixedPart
      = this.fixedPart := by
    rw [Ball.checkHollowCircleCollision_fixedPart, (Ball.checkBallCollision_fixedPart _ _ _ _ _).1,
      Ball.reflectWalls_fixedPart]
  simp only [Ball.update, Ball.new_toConfig_position]
  generalize Ball.checkHollowCircleCollision m updateId
      (Ball.checkBallCollision m updateId i
        (this.reflectWalls (Ball.upperLimit display this) (Ball.lowerLimit this)) actors).1
      (Ball.checkBallCollision m updateId i
        (this.reflectWalls (Ball.upperLimit display this) (Ball.lowerLimit this)) actors).2 = t2
    at hvx hvy hfix ⊢
  have hpos : t2.position = Vector.ofK px py := (congrArg Ball.position hfix).trans hp
  obtain ⟨X, hX, hX1, hX2⟩ := clamp_contained px (0 + r) (W - r) _ hvx (by linarith)
  obtain ⟨Y, hY, hY1, hY2⟩ := clamp_contained py (0 + r) (H - r) _ hvy (by linarith)
  refine ⟨X, Y, ?_, by linarith, hX2, by linarith, hY2⟩
  subst hd
  simp only [hpos, hr, Ball.upperLimit, Ball.lowerLimit, Vector.ofK, JSNum.fin_sub_fin,
    JSNum.fin_add_fin]
  rw [hX, hY]

/-! ## The frame driver (C9) -/

/-- One call of `frame` after a first one, on finite timestamps. -/
theorem frame_fin (t0 t1 : K) :
    frame (some (.fin t0)) (.fin t1)
      = (some (.fin (min 100 (t1 - t0) / 1000)), some (.fin t1)) := by
  have h1000 : (1000 : K) ≠ 0 := by norm_num
  simp only [frame, JSNum.fin_sub_fin, JSNum.min_fin_fin, JSNum.fin_div_fin _ _ h1000]

theorem dt_le (t0 t1 : K) : min 100 (t1 - t0) / 1000 ≤ 1 / 10 := by
  have : min 100 (t1 - t0) ≤ 100 := min_le_left _ _
  rw [div_le_iff₀ (by norm_num)]
  linarith

/-- Every time step handed to `animation` after the first callback is at most a tenth. -/
theorem frames_fin (ts : List K) :
    ∀ t0 : K, (∀ d ∈ frames (some (.fin t0)) (ts.map JSNum.fin), ∃ k : K, d = .fin k ∧ k ≤ 1 / 10) ∧
      (frames (some (.fin t0)) (ts.map JSNum.fin)).length = ts.length := by
  induction ts with
  | nil =>
    intro t0
    exact ⟨fun d hd => absurd hd (List.not_mem_nil d), rfl⟩
  | cons t1 rest ih =>
    intro t0
    have hf := frame_fin t0 t1
    have e : frames (some (.fin t0)) ((t1 :: rest).map JSNum.fin)
        = .fin (min 100 (t1 - t0) / 1000) :: frames (some (.fin t1)) (rest.map JSNum.fin) := by
      simp only [List.map_cons, frames, hf]
    rw [e]
    refine ⟨?_, by simp [(ih t1).2]⟩
    intro d hd
    rcases List.mem_cons.mp hd with h | h
    · exact ⟨_, h, dt_le t0 t1⟩
    · exact (ih t1).1 d h

/-- C9: for consecutive finite host timestamps `t0` then `t1`, the callback `frame` hands
`min(100, t1 - t0) / 1000` to `animation`, which is at most `0.1`; on the first callback
(`lastTime` is `null`) `animation` is not called; over any sequence of finite timestamps every
time step handed to `animation` is at most `0.1` and there is one call fewer than callbacks. -/
theorem C9_frame_dt_clamp (t0 t1 : K) (ts : List K) :
    frame (some (.fin t0)) (.fin t1)
      = (some (.fin (min 100 (t1 - t0) / 1000)), some (.fin t1)) ∧
    min 100 (t1 - t0) / 1000 ≤ 1 / 10 ∧
    (∀ time : JSNum K, frame none time = (none, some time)) ∧
    runAnimation [(.fin t0 : JSNum K)] = [] ∧
    (∀ d ∈ runAnimation ((t0 :: ts).map JSNum.fin), ∃ k : K, d = .fin k ∧ k ≤ 1 / 10) ∧
    (runAnimation ((t0 :: ts).map JSNum.fin)).length = ts.length := by
  refine ⟨frame_fin t0 t1, dt_le t0 t1, fun _ => rfl, rfl, ?_, ?_⟩
  · exact (frames_fin ts t0).1
  · exact (frames_fin ts t0).2

/-! ## The tick of the returned state (C10) -/

/-- C10, evaluated on the code: for every state `s`, the state returned by `s.update(dt)` has
`updateId = 0` (the constructor of `State` resets it), which is not greater than the tick of `s`
before the call; the increment lands on the receiver, whose tick after the call is the value
handed to the actors; so the tick handed to the actors by the next update, of the returned state,
is `1` again. -/
theorem C10_returned_state_tick_is_zero [FloorRing K] (m : JSMath K) (s : State K)
    (time time2 : JSNum K) :
    (State.update m s time).2.updateId = 0 ∧
    ¬ (s.updateId < (State.update m s time).2.updateId) ∧
    (State.update m s time).1.updateId = s.updateId + 1 ∧
    (State.update m (State.update m s time).2 time2).1.updateId = 1 := by
  refine ⟨rfl, ?_, rfl, rfl⟩
  show ¬ (s.updateId < 0)
  exact Nat.not_lt_zero _

/-! ## What a ball reads from a ball updated before it (C11) -/

/-- The scan of the first of two balls when the look-ahead test fails. -/
theorem Ball.checkBallCollision_pair_far (m : JSMath K) (updateId : Nat)
    (this a other : Ball K)
    (hfar : JSNum.le
      (((this.position.add this.velocity).subtract
        (other.position.add other.velocity)).magnitude m) (this.radius + other.radius) = false) :
    Ball.checkBallCollision m updateId 0 this [.ball a, .ball other]
      = (this, [.ball a, .ball other]) := by
  unfold Ball.checkBallCollision
  rw [show List.range [Actor.ball a, Actor.ball other].length = [0, 1] from rfl]
  simp only [List.foldl_cons, List.foldl_nil]
  have h0 : Ball.checkBallCollisionStep m updateId 0 (this, [.ball a, .ball other]) 0
      = (this, [.ball a, .ball other]) := by
    simp [Ball.checkBallCollisionStep]
  rw [h0]
  simp [Ball.checkBallCollisionStep, hfar]

/-- The scan of the second of two balls when the look-ahead test fails. -/
theorem Ball.checkBallCollision_pair_far_second (m : JSMath K) (updateId : Nat)
    (this other x : Ball K)
    (hfar : JSNum.le
      (((this.position.add this.velocity).subtract
        (other.position.add other.velocity)).magnitude m) (this.radius + other.radius) = false) :
    Ball.checkBallCollision m updateId 1 this [.ball other, .ball x]
      = (this, [.ball other, .ball x]) := by
  unfold Ball.checkBallCollision
  rw [show List.range [Actor.ball other, Actor.ball x].length = [0, 1] from rfl]
  simp only [List.foldl_cons, List.foldl_nil]
  have h0 : Ball.checkBallCollisionStep m updateId 1 (this, [.ball other, .ball x]) 0
      = (this, [.ball other, .ball x]) := by
    simp [Ball.checkBallCollisionStep, hfar]
  rw [h0]
  simp [Ball.checkBallCollisionStep]

/-- The look-ahead test of two balls on a vertical line, over the rationals. -/
theorem mathQ_lookAhead_vertical (b1 b2 : Ball ℚ) (x y1 y2 a b r1 r2 : ℚ)
    (hp1 : b1.position = .ofK x y1) (hp2 : b2.position = .ofK x y2)
    (hv1 : b1.velocity = .ofK 0 a) (hv2 : b2.velocity = .ofK 0 b)
    (hr1 : b1.radius = .fin r1) (hr2 : b2.radius = .fin r2) :
    JSNum.le
      (((b1.position.add b1.velocity).subtract (b2.position.add b2.velocity)).magnitude mathQ)
      (b1.radius + b2.radius) = decide (|y1 + a - (y2 + b)| ≤ r1 + r2) := by
  have e : (x + 0 - (x + 0)) * (x + 0 - (x + 0)) + (y1 + a - (y2 + b)) * (y1 + a - (y2 + b))
      = (y1 + a - (y2 + b)) * (y1 + a - (y2 + b)) := by ring
  have hs : mathQ.sqrt ((y1 + a - (y2 + b)) * (y1 + a - (y2 + b))) = |y1 + a - (y2 + b)| :=
    Rat.sqrt_eq _
  simp only [hp1, hp2, hv1, hv2, hr1, hr2, Vector.ofK, Vector.add, Vector.subtract,
    Vector.magnitude, JSNum.fin_add_fin, JSNum.fin_sub_fin, JSNum.sq_fin, JSMath.sqrtNum, e,
    if_neg (not_lt.mpr (mul_self_nonneg _)), hs, JSNum.le_fin_fin]

/-- The actor array before the second callback is the array the first callback leaves. -/
theorem State.actorsBefore_one [FloorRing K] (m : JSMath K) (s : State K) (time : JSNum K)
    (a : Actor K) (rest : List (Actor K)) (hs : s.actors = a :: rest) :
    State.actorsBefore m s time 1
      = (Actor.update m s.display time (s.updateId + 1) 0 a s.actors).1 := by
  unfold State.actorsBefore
  rw [show List.range 1 = [0] from rfl]
  simp only [List.foldl_cons, List.foldl_nil, State.updateStep, hs, List.getElem?_cons_zero]

/-- The second callback runs on the array the first callback leaves. -/
theorem State.actorsBefore_two [FloorRing K] (m : JSMath K) (s : State K) (time : JSNum K)
    (b : Actor K) (h1 : (State.actorsBefore m s time 1)[1]? = some b) :
    State.actorsBefore m s time 2
      = (Actor.update m s.display time (s.updateId + 1) 1 b (State.actorsBefore m s time 1)).1 := by
  unfold State.actorsBefore at h1 ⊢
  rw [show List.range 2 = [0, 1] from rfl]
  rw [show List.range 1 = [0] from rfl] at h1 ⊢
  simp only [List.foldl_cons, List.foldl_nil] at h1 ⊢
  conv_lhs => rw [State.updateStep]
  rw [h1]

/-- C11, amended: within one `State.update`, for the first two actors `A` and `B` of the actor
order, both balls, the actor array on which the update of `B` runs, and from which its look-ahead
test reads the velocity of `A`, holds `A` as the update of `A` left it: when the scans of `A`
resolve no collision, the velocity of `A` in that array is its pre-tick velocity plus its
`gravityForce`, with the wall reflections of `A` applied. -/
theorem C11_sibling_velocity_after_own_update [FloorRing K] (m : JSMath K) (s : State K)
    (time : JSNum K) (A B : Ball K) (rest : List (Actor K)) (W H px py vx vy r gx gy : K)
    (hs : s.actors = .ball A :: .ball B :: rest) (hd : s.display = ⟨.fin W, .fin H⟩)
    (hp : A.position = .ofK px py) (hv : A.velocity = .ofK vx vy) (hr : A.radius = .fin r)
    (hg : A.gravityForce = .ofK gx gy)
    (hscan : Ball.checkBallCollision m (s.updateId + 1) 0
        (A.reflectWalls (Ball.upperLimit s.display A) (Ball.lowerLimit A)) s.actors
      = (A.reflectWalls (Ball.upperLimit s.display A) (Ball.lowerLimit A), s.actors))
    (hhollow : Ball.checkHollowCircleCollision m (s.updateId + 1)
        (A.reflectWalls (Ball.upperLimit s.display A) (Ball.lowerLimit A)) s.actors
      = A.reflectWalls (Ball.upperLimit s.display A) (Ball.lowerLimit A)) :
    State.actorsBefore m s time 1
      = .ball { A with velocity := (Vector.ofK
          (if W - r ≤ px ∨ px ≤ 0 + r then -(vx + gx) else vx + gx)
          (if H - r ≤ py ∨ py ≤ 0 + r then -(vy + gy) + gy * (3 / 2) else vy + gy)) }
        :: .ball B :: rest ∧
    State.actorsBefore m s time 2
      = (Actor.update m s.display time (s.updateId + 1) 1 (.ball B)
          (State.actorsBefore m s time 1)).1 := by
  have hrw := Ball.reflectWalls_fin W H px py vx vy r gx gy A s.display hd hp hv hr hg
  have hup := Ball.update_of_scan m s.display time (s.updateId + 1) 0 A _ _ _ _ hscan hhollow
  have h1 : State.actorsBefore m s time 1
      = .ball { A with velocity := (Vector.ofK
          (if W - r ≤ px ∨ px ≤ 0 + r then -(vx + gx) else vx + gx)
          (if H - r ≤ py ∨ py ≤ 0 + r then -(vy + gy) + gy * (3 / 2) else vy + gy)) }
        :: .ball B :: rest := by
    rw [State.actorsBefore_one m s time _ _ hs]
    show (Ball.update m s.display time (s.updateId + 1) 0 A s.actors).1 = _
    rw [hup, hrw, hs]
    rfl
  refine ⟨h1, State.actorsBefore_two m s time (.ball B) ?_⟩
  rw [h1]
  simp

theorem stackedFirst_reflectWalls :
    stackedFirst.reflectWalls (Ball.upperLimit display800 stackedFirst)
        (Ball.lowerLimit stackedFirst)
      = { stackedFirst with velocity := (Vector.ofK 0 2) } := by
  rw [Ball.reflectWalls_fin 800 800 100 121 0 0 10 0 2 stackedFirst display800 rfl rfl rfl rfl rfl]
  have hcx : ¬ ((800 : ℚ) - 10 ≤ 100 ∨ (100 : ℚ) ≤ 0 + 10) := by norm_num
  have hcy : ¬ ((800 : ℚ) - 10 ≤ 121 ∨ (121 : ℚ) ≤ 0 + 10) := by norm_num
  rw [if_neg hcx, if_neg hcy]
  simp only [add_zero, zero_add]

theorem stackedSecond_reflectWalls :
    stackedSecond.reflectWalls (Ball.upperLimit display800 stackedSecond)
        (Ball.lowerLimit stackedSecond)
      = { stackedSecond with velocity := (Vector.ofK 0 2) } := by
  rw [Ball.reflectWalls_fin 800 800 100 100 0 0 10 0 2 stackedSecond display800 rfl rfl rfl rfl
    rfl]
  have hcx : ¬ ((800 : ℚ) - 10 ≤ 100 ∨ (100 : ℚ) ≤ 0 + 10) := by norm_num
  rw [if_neg hcx, if_neg hcx]
  simp only [add_zero, zero_add]

/-- The scan of the first ball of the stacked pair resolves nothing. -/
theorem stackedFirst_scan :
    Ball.checkBallCollision mathQ 1 0
        (stackedFirst.reflectWalls (Ball.upperLimit display800 stackedFirst)
          (Ball.lowerLimit stackedFirst)) [.ball stackedFirst, .ball stackedSecond]
      = (stackedFirst.reflectWalls (Ball.upperLimit display800 stackedFirst)
          (Ball.lowerLimit stackedFirst), [.ball stackedFirst, .ball stackedSecond]) := by
  rw [stackedFirst_reflectWalls]
  apply Ball.checkBallCollision_pair_far
  rw [mathQ_lookAhead_vertical _ stackedSecond 100 121 100 2 0 10 10 rfl rfl rfl rfl rfl rfl]
  norm_num [abs_le]

/-- The amended C11 at the stacked pair: the update of the second ball runs on an array in which
the first ball has the velocity `(0, 2)`, its velocity `(0, 0)` plus its gravity force. -/
theorem C11_sibling_velocity_after_own_update_witness :
    State.actorsBefore mathQ stackedState (.fin 0) 1
      = [.ball { stackedFirst with velocity := (Vector.ofK 0 2) }, .ball stackedSecond] := by
  have h := (C11_sibling_velocity_after_own_update mathQ stackedState (.fin 0) stackedFirst
    stackedSecond [] 800 800 100 121 0 0 10 0 2 rfl rfl rfl rfl rfl rfl stackedFirst_scan
    (Ball.checkHollowCircleCollision_no_circle mathQ _ _ _ (by simp [stackedState, State.new]))).1
  have hcx : ¬ ((800 : ℚ) - 10 ≤ 100 ∨ (100 : ℚ) ≤ 0 + 10) := by norm_num
  have hcy : ¬ ((800 : ℚ) - 10 ≤ 121 ∨ (121 : ℚ) ≤ 0 + 10) := by norm_num
  rw [if_neg hcx, if_neg hcy] at h
  simp only [add_zero, zero_add] at h
  exact h

/-- C11 as stated fails: in the stacked pair the first ball `A` has the pre-tick velocity
`(0, 0)`, and the array on which the update of the second ball `B` runs holds `A` with the
velocity `(0, 2)`.  With the pre-tick velocity of `A` the look-ahead test of `B` would succeed
(distance 19, radii 10 and 10); with the velocity that `B` reads it fails (distance 21), no pair
is resolved, and both returned balls have the velocity `(0, 2)`. -/
theorem C11_counterexample_stacked_pair :
    stackedFirst.velocity = Vector.ofK 0 0 ∧
    (State.actorsBefore mathQ stackedState (.fin 0) 1)[0]?.map Actor.velocity
      = some (Vector.ofK 0 2) ∧
    JSNum.le
      ((((stackedSecond.reflectWalls (Ball.upperLimit display800 stackedSecond)
            (Ball.lowerLimit stackedSecond)).position.add
          (stackedSecond.reflectWalls (Ball.upperLimit display800 stackedSecond)
            (Ball.lowerLimit stackedSecond)).velocity).subtract
        (stackedFirst.position.add stackedFirst.velocity)).magnitude mathQ)
      (stackedSecond.radius + stackedFirst.radius) = true ∧
    JSNum.le
      ((((stackedSecond.reflectWalls (Ball.upperLimit display800 stackedSecond)
            (Ball.lowerLimit stackedSecond)).position.add
          (stackedSecond.reflectWalls (Ball.upperLimit display800 stackedSecond)
            (Ball.lowerLimit stackedSecond)).velocity).subtract
        (stackedFirst.position.add (Vector.ofK 0 2))).magnitude mathQ)
      (stackedSecond.radius + stackedFirst.radius) = false ∧
    (State.update mathQ stackedState (.fin 0)).2.actors.map Actor.velocity
      = [Vector.ofK 0 2, Vector.ofK 0 2] := by
  have hup1 := Ball.update_of_scan mathQ display800 (.fin 0) 1 0 stackedFirst _ _ _ _
    stackedFirst_scan
    (Ball.checkHollowCircleCollision_no_circle mathQ 1 _ _ (by simp))
  rw [stackedFirst_reflectWalls] at hup1
  simp only [List.set_cons_zero] at hup1
  have hmem : State.actorsBefore mathQ stackedState (.fin 0) 1
      = [.ball { stackedFirst with velocity := (Vector.ofK 0 2) }, .ball stackedSecond] := by
    rw [State.actorsBefore_one mathQ stackedState (.fin 0) (.ball stackedFirst)
      [.ball stackedSecond] rfl]
    show (Ball.update mathQ display800 (.fin 0) 1 0 stackedFirst
      [.ball stackedFirst, .ball stackedSecond]).1 = _
    rw [hup1]
  have hfar2 : JSNum.le
      (((({ stackedSecond with velocity := (Vector.ofK 0 2) } : Ball ℚ).position.add
          ({ stackedSecond with velocity := (Vector.ofK 0 2) } : Ball ℚ).velocity).subtract
        (({ stackedFirst with velocity := (Vector.ofK 0 2) } : Ball ℚ).position.add
          ({ stackedFirst with velocity := (Vector.ofK 0 2) } : Ball ℚ).velocity)).magnitude mathQ)
      (({ stackedSecond with velocity := (Vector.ofK 0 2) } : Ball ℚ).radius
        + ({ stackedFirst with velocity := (Vector.ofK 0 2) } : Ball ℚ).radius) = false := by
    rw [mathQ_lookAhead_vertical _ _ 100 100 121 2 2 10 10 rfl rfl rfl rfl rfl rfl]
    norm_num [abs_le]
  have hscan2 := Ball.checkBallCollision_pair_far_second mathQ 1
    { stackedSecond with velocity := (Vector.ofK 0 2) }
    { stackedFirst with velocity := (Vector.ofK 0 2) } stackedSecond hfar2
  have hup2 := Ball.update_of_scan mathQ display800 (.fin 0) 1 1 stackedSecond _ _ _ _
    ((congrArg (fun t => Ball.checkBallCollision mathQ 1 1 t
      [Actor.ball { stackedFirst with velocity := (Vector.ofK 0 2) }, Actor.ball stackedSecond])
      stackedSecond_reflectWalls).trans hscan2)
    (Ball.checkHollowCircleCollision_no_circle mathQ 1 _ _ (by simp))
  have hupd := State.update_pair mathQ stackedState (.fin 0) (.ball stackedFirst)
    (.ball stackedSecond) _ _ _ _ _ rfl
    (by
      show ((Ball.update mathQ display800 (.fin 0) 1 0 stackedFirst
          [.ball stackedFirst, .ball stackedSecond]).1,
        Actor.ball (Ball.update mathQ display800 (.fin 0) 1 0 stackedFirst
          [.ball stackedFirst, .ball stackedSecond]).2) = _
      rw [hup1])
    (by
      show ((Ball.update mathQ display800 (.fin 0) 1 1 stackedSecond _).1,
        Actor.ball (Ball.update mathQ display800 (.fin 0) 1 1 stackedSecond _).2) = _
      rw [hup2])
  refine ⟨rfl, ?_, ?_, ?_, ?_⟩
  · rw [hmem]
    rfl
  · rw [stackedSecond_reflectWalls,
      mathQ_lookAhead_vertical _ stackedFirst 100 100 121 2 0 10 10 rfl rfl rfl rfl rfl rfl]
    norm_num [abs_le]
  · rw [stackedSecond_reflectWalls]
    exact hfar2
  · rw [hupd]
    rfl

/-! ## Reflection off the annulus (C12) -/

/-- The value of `hollowCircleCollisionVector` on finite fields when the distance is not zero. -/
theorem hollowCircleCollisionVector_fin (m : JSMath K) (ball : Ball K) (circle : Circle K)
    (px py cx cy vx vy : K)
    (hp : ball.position = .ofK px py) (hc : circle.position = .ofK cx cy)
    (hv : ball.velocity = .ofK vx vy)
    (hs : m.sqrt ((cx - px) * (cx - px) + (cy - py) * (cy - py)) ≠ 0) :
    hollowCircleCollisionVector m ball circle = .ofK
      (vx - (cx - px) / m.sqrt ((cx - px) * (cx - px) + (cy - py) * (cy - py)) *
        (vx * ((cx - px) / m.sqrt ((cx - px) * (cx - px) + (cy - py) * (cy - py))) +
          vy * ((cy - py) / m.sqrt ((cx - px) * (cx - px) + (cy - py) * (cy - py)))) * 2)
      (vy - (cy - py) / m.sqrt ((cx - px) * (cx - px) + (cy - py) * (cy - py)) *
        (vx * ((cx - px) / m.sqrt ((cx - px) * (cx - px) + (cy - py) * (cy - py))) +
          vy * ((cy - py) / m.sqrt ((cx - px) * (cx - px) + (cy - py) * (cy - py)))) * 2) := by
  simp only [hollowCircleCollisionVector, hp, hc, hv, Vector.ofK, Vector.subtract,
    Vector.multiply, Vector.dotProduct, Vector.magnitude, JSMath.sqrtNum,
    JSNum.fin_sub_fin, JSNum.fin_mul_fin, JSNum.fin_add_fin, JSNum.sq_fin,
    if_neg (not_lt.mpr (sqDist_nonneg cx cy px py)), JSNum.fin_div_fin _ _ hs]

/-- C12: for every ball and hollow circle with finite fields whose positions differ, with
`Math.sqrt` exact at the squared distance of the two centres, `hollowCircleCollisionVector`
returns a velocity `v'` with `|v'|^2 = |v|^2`, whose component along the unit normal from the
ball to the centre of the circle is the negation of that of `v`, and whose component
perpendicular to that normal equals that of `v`. -/
theorem C12_specular_reflection (m : JSMath K) (ball : Ball K) (circle : Circle K)
    (px py cx cy vx vy : K)
    (hp : ball.position = .ofK px py) (hc : circle.position = .ofK cx cy)
    (hv : ball.velocity = .ofK vx vy) (hne : cx ≠ px ∨ cy ≠ py)
    (hsqrt : m.sqrt ((cx - px) * (cx - px) + (cy - py) * (cy - py)) *
        m.sqrt ((cx - px) * (cx - px) + (cy - py) * (cy - py))
      = (cx - px) * (cx - px) + (cy - py) * (cy - py)) :
    ∃ ax ay : K, hollowCircleCollisionVector m ball circle = .ofK ax ay ∧
      ax * ax + ay * ay = vx * vx + vy * vy ∧
      ax * ((cx - px) / m.sqrt ((cx - px) * (cx - px) + (cy - py) * (cy - py)))
          + ay * ((cy - py) / m.sqrt ((cx - px) * (cx - px) + (cy - py) * (cy - py)))
        = -(vx * ((cx - px) / m.sqrt ((cx - px) * (cx - px) + (cy - py) * (cy - py)))
          + vy * ((cy - py) / m.sqrt ((cx - px) * (cx - px) + (cy - py) * (cy - py)))) ∧
      ax * (-((cy - py) / m.sqrt ((cx - px) * (cx - px) + (cy - py) * (cy - py))))
          + ay * ((cx - px) / m.sqrt ((cx - px) * (cx - px) + (cy - py) * (cy - py)))
        = vx * (-((cy - py) / m.sqrt ((cx - px) * (cx - px) + (cy - py) * (cy - py))))
          + vy * ((cx - px) / m.sqrt ((cx - px) * (cx - px) + (cy - py) * (cy - py))) := by
  have hd := sqDist_pos cx cy px py hne
  have hs : m.sqrt ((cx - px) * (cx - px) + (cy - py) * (cy - py)) ≠ 0 := by
    intro h0
    rw [h0, mul_zero] at hsqrt
    exact absurd hsqrt.symm (ne_of_gt hd)
  refine ⟨_, _, hollowCircleCollisionVector_fin m ball circle px py cx cy vx vy hp hc hv hs, ?_⟩
  -- the unit normal
  have hn : (cx - px) / m.sqrt ((cx - px) * (cx - px) + (cy - py) * (cy - py)) *
        ((cx - px) / m.sqrt ((cx - px) * (cx - px) + (cy - py) * (cy - py)))
      + (cy - py) / m.sqrt ((cx - px) * (cx - px) + (cy - py) * (cy - py)) *
        ((cy - py) / m.sqrt ((cx - px) * (cx - px) + (cy - py) * (cy - py))) = 1 := by
    rw [div_mul_div_comm, div_mul_div_comm, ← add_div, hsqrt, div_self (ne_of_gt hd)]
  generalize (cx - px) / m.sqrt ((cx - px) * (cx - px) + (cy - py) * (cy - py)) = nx at hn ⊢
  generalize (cy - py) / m.sqrt ((cx - px) * (cx - px) + (cy - py) * (cy - py)) = ny at hn ⊢
  refine ⟨?_, ?_, ?_⟩
  · linear_combination (4 * (vx * nx + vy * ny) ^ 2) * hn
  · linear_combination (-2 * (vx * nx + vy * ny)) * hn
  · ring

/-- The square root of the squared distance of `(100, 100)` and `(103, 104)` is exact. -/
theorem mathQ_sqrt_25 : mathQ.sqrt (((100 : ℚ) - 103) * (100 - 103) + (100 - 104) * (100 - 104))
    * mathQ.sqrt (((100 : ℚ) - 103) * (100 - 103) + (100 - 104) * (100 - 104))
    = ((100 : ℚ) - 103) * (100 - 103) + (100 - 104) * (100 - 104) := by
  have h : ((100 : ℚ) - 103) * (100 - 103) + (100 - 104) * (100 - 104) = 5 * 5 := by norm_num
  rw [h]
  exact mathQ_sqrt_mul_self 5

/-- C12 at a ball at `(103, 104)` with velocity `(-1, 2)` and a circle centred at `(100, 100)`:
the returned velocity has the squared magnitude 5. -/
theorem C12_specular_reflection_witness :
    ∃ ax ay : ℚ, hollowCircleCollisionVector mathQ energyBallB smallCircle = .ofK ax ay ∧
      ax * ax + ay * ay = (-1) * (-1) + 2 * 2 := by
  obtain ⟨ax, ay, h1, h2, _⟩ := C12_specular_reflection mathQ energyBallB smallCircle
    103 104 100 100 (-1) 2 rfl rfl rfl (Or.inl (by norm_num)) mathQ_sqrt_25
  exact ⟨ax, ay, h1, h2⟩

/-! ## The collision band of the annulus (C13) -/

/-- C13: for every ball and hollow circle where the normalised angle of the ball is not within
`[openGapStart, openGapEnd]`, the iteration of `checkHollowCircleCollision` for that circle
replaces the velocity of the ball by `hollowCircleCollisionVector(ball, circle)` (and pushes the
tag) when the distance between the predicted positions lies in
`[circle.radius - ball.radius, circle.radius + 9]`, and leaves the ball unchanged otherwise. -/
theorem C13_annulus_collision_band [FloorRing K] (m : JSMath K) (updateId : Nat) (this : Ball K)
    (circle : Circle K) (hgap : inOpenGap m this circle = false) :
    (JSNum.ge (((this.position.add this.velocity).subtract
          (circle.position.add circle.velocity)).magnitude m) (circle.radius - this.radius) = true ∧
      JSNum.le (((this.position.add this.velocity).subtract
          (circle.position.add circle.velocity)).magnitude m) (circle.radius + .fin 9) = true →
      Ball.checkHollowCircleCollisionStep m updateId this (.circle circle) =
        { this with velocity := hollowCircleCollisionVector m this circle,
                    collisions := this.collisions ++ [circle.id + updateId] }) ∧
    (¬ (JSNum.ge (((this.position.add this.velocity).subtract
          (circle.position.add circle.velocity)).magnitude m) (circle.radius - this.radius) = true ∧
        JSNum.le (((this.position.add this.velocity).subtract
          (circle.position.add circle.velocity)).magnitude m) (circle.radius + .fin 9) = true) →
      Ball.checkHollowCircleCollisionStep m updateId this (.circle circle) = this) := by
  constructor
  · rintro ⟨h1, h2⟩
    simp [Ball.checkHollowCircleCollisionStep, h1, h2, hgap]
  · intro h
    simp only [Ball.checkHollowCircleCollisionStep, hgap, Bool.not_false, Bool.and_true,
      Bool.and_eq_true]
    rw [if_neg h]

/-- C13 at a ball at rest at `(-100, 0)` and the default circle of radius 100: the angle of the
ball is half a turn, outside the gap, the distance 100 is in the band, and the velocity is
replaced. -/
theorem C13_annulus_collision_band_witness :
    Ball.checkHollowCircleCollisionStep mathQ 1 bandBall (.circle defaultCircle) =
      { bandBall with velocity := hollowCircleCollisionVector mathQ bandBall defaultCircle,
                      collisions := bandBall.collisions ++ [defaultCircle.id + 1] } := by
  have hpi := mathQ_PI_pos
  have h2 : (2 : ℚ) * mathQ.PI ≠ 0 := by positivity
  have hangle : normalizedAngle mathQ bandBall defaultCircle = .fin mathQ.PI := by
    simp only [normalizedAngle, bandBall, defaultCircle, Ball.new, Circle.new, objOrDefault,
      Vector.ofK, JSNum.fin_sub_fin, JSMath.atan2Num, JSNum.fin_add_fin, JSNum.fin_mul_fin,
      JSNum.fmod, if_neg h2]
    have hat : mathQ.atan2 (0 - 0) (-100 - 0) = mathQ.PI := by norm_num [mathQ, atan2Q]
    rw [hat]
    have hq : (mathQ.PI + 2 * mathQ.PI) / (2 * mathQ.PI) = 3 / 2 := by
      field_simp
      ring
    rw [hq]
    have hfl : ⌊(3 / 2 : ℚ)⌋ = 1 := by
      rw [Int.floor_eq_iff]
      norm_num
    rw [if_pos (by norm_num), hfl]
    congr 1
    push_cast
    ring
  have hend : defaultCircle.openGapEnd = .fin (0 + mathQ.PI / 2) := by
    have h2' : (2 : ℚ) ≠ 0 := by norm_num
    simp only [defaultCircle, Circle.new, JSNum.orDefault, JSNum.fin_div_fin _ _ h2',
      JSNum.fin_add_fin]
  have hgap : inOpenGap mathQ bandBall defaultCircle = false := by
    unfold inOpenGap
    rw [hangle, hend, Bool.and_eq_false_iff]
    right
    simp only [JSNum.le_fin_fin, decide_eq_false_iff_not, not_le]
    linarith
  have hdist : ((bandBall.position.add bandBall.velocity).subtract
      (defaultCircle.position.add defaultCircle.velocity)).magnitude mathQ = .fin 100 := by
    have e : ((-100 : ℚ) + 0 - (0 + 0)) * (-100 + 0 - (0 + 0)) + (0 + 0 - (0 + 0)) * (0 + 0 - (0 + 0))
        = 100 * 100 := by norm_num
    have hs : mathQ.sqrt (100 * 100) = 100 := by
      show Rat.sqrt (100 * 100) = 100
      rw [Rat.sqrt_eq]; norm_num
    have hnn : ¬ ((100 : ℚ) * 100 < 0) := by norm_num
    simp only [bandBall, defaultCircle, Ball.new, Circle.new, objOrDefault, Vector.ofK,
      Vector.add, Vector.subtract, Vector.magnitude, JSNum.fin_add_fin, JSNum.fin_sub_fin,
      JSNum.sq_fin, JSMath.sqrtNum, e, if_neg hnn, hs]
  refine (C13_annulus_collision_band mathQ 1 bandBall defaultCircle hgap).1 ⟨?_, ?_⟩
  · rw [hdist]
    simp [bandBall, defaultCircle, Ball.new, Circle.new, JSNum.orDefault, JSNum.truthy]
  · rw [hdist]
    simp [defaultCircle, Circle.new, JSNum.orDefault]

/-! ## Collision tags last for one update (C14) -/

/-- The update of a state of two equal balls on a horizontal line whose pair is resolved by the
scan of the first ball: the returned balls. -/
theorem State.update_head_on [FloorRing K] (m : JSMath K) (s : State K) (time : JSNum K)
    (b1 b2 : Ball K) (W H x1 x2 y a b r : K)
    (hs : s.actors = [.ball b1, .ball b2]) (hd : s.display = ⟨.fin W, .fin H⟩)
    (hp1 : b1.position = .ofK x1 y) (hp2 : b2.position = .ofK x2 y)
    (hv1 : b1.velocity = .ofK a 0) (hv2 : b2.velocity = .ofK b 0)
    (hr1 : b1.radius = .fin r) (hr2 : b2.radius = .fin r)
    (hg1 : b1.gravityForce = .ofK 0 0) (hg2 : b2.gravityForce = .ofK 0 0)
    (hin1 : r < x1 ∧ x1 < W - r) (hin2 : r < x2 ∧ x2 < W - r) (hiny : r < y ∧ y < H - r)
    (hne : x1 ≠ x2) (hr : 0 < r) (hpi : 0 < m.PI)
    (hsqrt : m.sqrt ((x1 - x2) * (x1 - x2)) * m.sqrt ((x1 - x2) * (x1 - x2))
      = (x1 - x2) * (x1 - x2))
    (hnear : JSNum.le
      (((b1.position.add b1.velocity).subtract (b2.position.add b2.velocity)).magnitude m)
      (b1.radius + b2.radius) = true)
    (htag : (b2.id + (s.updateId + 1)) ∉ b1.collisions) :
    ∃ n1 n2 : Ball K, (State.update m s time).2 = State.new s.display [.ball n1, .ball n2] ∧
      n1.velocity = .ofK b 0 ∧ n2.velocity = .ofK a 0 ∧
      n1.position = .ofK (max (min (x1 + b) (W - r)) (0 + r)) (max (min (y + 0) (H - r)) (0 + r)) ∧
      n2.position = .ofK (max (min (x2 + a) (W - r)) (0 + r)) (max (min (y + 0) (H - r)) (0 + r)) ∧
      n1.radius = .fin r ∧ n2.radius = .fin r ∧
      n1.gravityForce = .ofK 0 0 ∧ n2.gravityForce = .ofK 0 0 ∧
      n1.collisions = [] ∧ n2.collisions = [] ∧ n1.id = 0 ∧ n2.id = 0 := by
  have hcx1 : ¬ (W - r ≤ x1 ∨ x1 ≤ 0 + r) := by
    rw [zero_add]; push_neg; exact ⟨hin1.2, hin1.1⟩
  have hcx2 : ¬ (W - r ≤ x2 ∨ x2 ≤ 0 + r) := by
    rw [zero_add]; push_neg; exact ⟨hin2.2, hin2.1⟩
  have hcy : ¬ (H - r ≤ y ∨ y ≤ 0 + r) := by
    rw [zero_add]; push_neg; exact ⟨hiny.2, hiny.1⟩
  have hrw1 := Ball.reflectWalls_fin W H x1 y a 0 r 0 0 b1 s.display hd hp1 hv1 hr1 hg1
  rw [if_neg hcx1, if_neg hcy, add_zero, add_zero] at hrw1
  have hb1 : ({ b1 with velocity := Vector.ofK a 0 } : Ball K) = b1 := by
    rw [← hv1]
  rw [hb1] at hrw1
  have hscan1 := Ball.checkBallCollision_pair_resolved m (s.updateId + 1) b1 b1 b2 htag hnear
  have hsqrt' : m.sqrt ((x2 - x1) * (x2 - x1)) * m.sqrt ((x2 - x1) * (x2 - x1))
      = (x2 - x1) * (x2 - x1) := by
    have e : (x2 - x1) * (x2 - x1) = (x1 - x2) * (x1 - x2) := by ring
    rw [e]; exact hsqrt
  have hcv1 := collisionVector_head_on m b1 b2 x1 y x2 y a 0 b 0 r hp1 hp2 hv1 hv2 hr1 hr2
    rfl rfl rfl (ne_of_gt hr) hpi hne hsqrt
  have hcv2 := collisionVector_head_on m b2 b1 x2 y x1 y b 0 a 0 r hp2 hp1 hv2 hv1 hr2 hr1
    rfl rfl rfl (ne_of_gt hr) hpi (Ne.symm hne) hsqrt'
  rw [hcv1, hcv2] at hscan1
  have hup1 := Ball.update_of_scan m s.display time (s.updateId + 1) 0 b1 _ _ _ _
    ((congrArg (fun t => Ball.checkBallCollision m (s.updateId + 1) 0 t
      [Actor.ball b1, Actor.ball b2]) hrw1).trans hscan1)
    (Ball.checkHollowCircleCollision_no_circle m (s.updateId + 1) _ _ (by simp))
  simp only [List.set_cons_zero] at hup1
  have hrw2 := Ball.reflectWalls_fin W H x2 y a 0 r 0 0
    { b2 with velocity := Vector.ofK a 0,
              collisions := b2.collisions ++ [b1.id + (s.updateId + 1)] }
    s.display hd hp2 rfl hr2 hg2
  rw [if_neg hcx2, if_neg hcy, add_zero, add_zero] at hrw2
  have hscan2 := Ball.checkBallCollision_pair_tagged m (s.updateId + 1)
    { b2 with velocity := Vector.ofK a 0,
              collisions := b2.collisions ++ [b1.id + (s.updateId + 1)] }
    { b1 with velocity := Vector.ofK b 0,
              collisions := b1.collisions ++ [b2.id + (s.updateId + 1)] }
    { b2 with velocity := Vector.ofK a 0,
              collisions := b2.collisions ++ [b1.id + (s.updateId + 1)] }
    (by simp)
  have hup2 := Ball.update_of_scan m s.display time (s.updateId + 1) 1
    { b2 with velocity := Vector.ofK a 0,
              collisions := b2.collisions ++ [b1.id + (s.updateId + 1)] } _ _ _ _
    ((congrArg (fun t => Ball.checkBallCollision m (s.updateId + 1) 1 t
      [Actor.ball { b1 with velocity := Vector.ofK b 0,
                            collisions := b1.collisions ++ [b2.id + (s.updateId + 1)] },
       Actor.ball { b2 with velocity := Vector.ofK a 0,
                            collisions := b2.collisions ++ [b1.id + (s.updateId + 1)] }])
      hrw2).trans hscan2)
    (Ball.checkHollowCircleCollision_no_circle m (s.updateId + 1) _ _ (by simp))
  have hupd := State.update_pair m s time (.ball b1) (.ball b2) _ _ _ _ _ hs
    (by simp only [Actor.update]; rw [hup1])
    (by simp only [Actor.update]; rw [hup2])
  rw [hupd]
  have hr0 := ne_of_gt hr
  refine ⟨_, _, rfl, rfl, rfl, ?_, ?_, ?_, ?_, hg1, hg2, rfl, rfl, rfl, rfl⟩
  · rw [hd]
    simp only [Ball.new_toConfig_position, hp1, hr1, Ball.upperLimit, Ball.lowerLimit, Vector.ofK,
      JSNum.fin_add_fin, JSNum.fin_sub_fin, JSNum.min_fin_fin, JSNum.max_fin_fin]
  · rw [hd]
    simp only [Ball.new_toConfig_position, hp2, hr2, Ball.upperLimit, Ball.lowerLimit, Vector.ofK,
      JSNum.fin_add_fin, JSNum.fin_sub_fin, JSNum.min_fin_fin, JSNum.max_fin_fin]
  · show JSNum.orDefault (some b1.radius) (.fin 10) = _
    rw [hr1]
    exact JSNum.orDefault_some_fin r _ hr0
  · show JSNum.orDefault (some b2.radius) (.fin 10) = _
    rw [hr2]
    exact JSNum.orDefault_some_fin r _ hr0

/-- The look-ahead distance of two balls on a horizontal line, over the rationals. -/
theorem mathQ_lookAhead_horizontal (b1 b2 : Ball ℚ) (x1 x2 y a b r1 r2 : ℚ)
    (hp1 : b1.position = .ofK x1 y) (hp2 : b2.position = .ofK x2 y)
    (hv1 : b1.velocity = .ofK a 0) (hv2 : b2.velocity = .ofK b 0)
    (hr1 : b1.radius = .fin r1) (hr2 : b2.radius = .fin r2) :
    JSNum.le
      (((b1.position.add b1.velocity).subtract (b2.position.add b2.velocity)).magnitude mathQ)
      (b1.radius + b2.radius) = decide (|x1 + a - (x2 + b)| ≤ r1 + r2) := by
  have e : (x1 + a - (x2 + b)) * (x1 + a - (x2 + b)) + (y + 0 - (y + 0)) * (y + 0 - (y + 0))
      = (x1 + a - (x2 + b)) * (x1 + a - (x2 + b)) := by ring
  have hs : mathQ.sqrt ((x1 + a - (x2 + b)) * (x1 + a - (x2 + b))) = |x1 + a - (x2 + b)| :=
    Rat.sqrt_eq _
  simp only [hp1, hp2, hv1, hv2, hr1, hr2, Vector.ofK, Vector.add, Vector.subtract,
    Vector.magnitude, JSNum.fin_add_fin, JSNum.fin_sub_fin, JSNum.sq_fin, JSMath.sqrtNum, e,
    if_neg (not_lt.mpr (mul_self_nonneg _)), hs, JSNum.le_fin_fin]

/-- C14 as stated fails: two balls of radius 10 at `(100, 100)` and `(110, 100)` with
velocities `(1, 0)` and `(-1, 0)`.  The first `State.update` resolves the pair (the returned
velocities are exchanged); the returned balls carry no collision tag, and their predicted
distance is still at most the sum of the radii; the next `State.update`, on the returned state,
resolves the pair again: the velocities are exchanged back. -/
theorem C14_pair_is_resolved_again :
    ∃ n1 n2 : Ball ℚ,
      (State.update mathQ overlapState (.fin 0)).2 = State.new display800 [.ball n1, .ball n2] ∧
      overlapLeft.velocity = .ofK 1 0 ∧ overlapRight.velocity = .ofK (-1) 0 ∧
      n1.velocity = .ofK (-1) 0 ∧ n2.velocity = .ofK 1 0 ∧
      n1.collisions = [] ∧ n2.collisions = [] ∧
      JSNum.le
        (((n1.position.add n1.velocity).subtract (n2.position.add n2.velocity)).magnitude mathQ)
        (n1.radius + n2.radius) = true ∧
      (State.update mathQ (State.update mathQ overlapState (.fin 0)).2 (.fin 0)).2.actors.map
        Actor.velocity = [.ofK 1 0, .ofK (-1) 0] := by
  obtain ⟨n1, n2, hst, hv1, hv2, hp1, hp2, hr1, hr2, hg1, hg2, hc1, hc2, _, hi2⟩ :=
    State.update_head_on mathQ overlapState (.fin 0) overlapLeft overlapRight
      800 800 100 110 100 1 (-1) 10 rfl rfl rfl rfl rfl rfl rfl rfl rfl rfl
      (by norm_num) (by norm_num) (by norm_num) (by norm_num) (by norm_num) mathQ_PI_pos
      (mathQ_sqrt_mul_self _)
      (by
        rw [mathQ_lookAhead_horizontal overlapLeft overlapRight 100 110 100 1 (-1) 10 10
          rfl rfl rfl rfl rfl rfl]
        norm_num [abs_le])
      (by simp [overlapLeft, Ball.new])
  change (State.update mathQ overlapState (.fin 0)).2
    = State.new display800 [.ball n1, .ball n2] at hst
  have ex1 : max (min ((100 : ℚ) + -1) (800 - 10)) (0 + 10) = 99 := by norm_num
  have ex2 : max (min ((110 : ℚ) + 1) (800 - 10)) (0 + 10) = 111 := by norm_num
  have ey : max (min ((100 : ℚ) + 0) (800 - 10)) (0 + 10) = 100 := by norm_num
  rw [ex1, ey] at hp1
  rw [ex2, ey] at hp2
  have hnear2 : JSNum.le
      (((n1.position.add n1.velocity).subtract (n2.position.add n2.velocity)).magnitude mathQ)
      (n1.radius + n2.radius) = true := by
    rw [mathQ_lookAhead_horizontal n1 n2 99 111 100 (-1) 1 10 10 hp1 hp2 hv1 hv2 hr1 hr2]
    norm_num [abs_le]
  obtain ⟨k1, k2, hst2, hw1, hw2, _⟩ :=
    State.update_head_on mathQ (State.new display800 [.ball n1, .ball n2]) (.fin 0) n1 n2
      800 800 99 111 100 (-1) 1 10 rfl rfl hp1 hp2 hv1 hv2 hr1 hr2 hg1 hg2
      (by norm_num) (by norm_num) (by norm_num) (by norm_num) (by norm_num) mathQ_PI_pos
      (mathQ_sqrt_mul_self _) hnear2 (by rw [hc1]; simp)
  refine ⟨n1, n2, hst, rfl, rfl, hv1, hv2, hc1, hc2, hnear2, ?_⟩
  rw [hst, hst2]
  simp [State.new, Actor.velocity, hw1, hw2]

/-- Gravity and the wall tests leave the collision tags and the `id` of `this` alone. -/
theorem Ball.reflectWalls_collisions (u l : Vector K) (this : Ball K) :
    (this.reflectWalls u l).collisions = this.collisions ∧
    (this.reflectWalls u l).id = this.id := by
  unfold Ball.reflectWalls
  dsimp only
  split_ifs <;> exact ⟨rfl, rfl⟩

/-- Every actor of the state returned by `State.update` comes out of a constructor: it carries
no collision tag and has `id` 0. -/
theorem State.update_returned_actors [FloorRing K] (m : JSMath K) (s : State K)
    (time : JSNum K) :
    ∀ a ∈ (State.update m s time).2.actors, Actor.collisions a = [] ∧ Actor.id a = 0 := by
  show ∀ a ∈ ((List.range s.actors.length).foldl
    (State.updateStep m s.display time (s.updateId + 1)) (s.actors, [])).2, _
  apply foldl_invariant
    (fun st : List (Actor K) × List (Actor K) =>
      ∀ a ∈ st.2, Actor.collisions a = [] ∧ Actor.id a = 0)
  · intro a ha
    exact absurd ha (List.not_mem_nil a)
  · intro st i h
    unfold State.updateStep
    split
    · rename_i actor hi
      intro a ha
      rcases List.mem_append.mp ha with h1 | h1
      · exact h a h1
      · rw [List.mem_singleton] at h1
        rw [h1]
        cases actor <;> exact ⟨rfl, rfl⟩
    · exact h

/-- C14, amended: the collision tag is `actor.id + updateId` of the running update and suppresses
a second resolution of a pair within the same `State.update` only (a ball that carries the tag
of the actor before it skips it).  The balls of the state returned by `State.update` carry no
collision tag; so for a returned state of two balls whose predicted distance (with the gravity
and wall tests of the first ball applied) is at most `r1 + r2`, the immediately following
`State.update` resolves the pair again: after the callback of the first ball both balls have
their velocity rewritten by `collisionVector` and carry the tag `1`. -/
theorem C14_tags_are_dropped_by_the_constructor [FloorRing K] (m : JSMath K) (s : State K)
    (time time2 : JSNum K) (n1 n2 : Ball K)
    (hret : (State.update m s time).2.actors = [.ball n1, .ball n2])
    (hnear : JSNum.le
      ((((n1.reflectWalls (Ball.upperLimit s.display n1) (Ball.lowerLimit n1)).position.add
          (n1.reflectWalls (Ball.upperLimit s.display n1) (Ball.lowerLimit n1)).velocity).subtract
        (n2.position.add n2.velocity)).magnitude m)
      ((n1.reflectWalls (Ball.upperLimit s.display n1) (Ball.lowerLimit n1)).radius + n2.radius)
        = true) :
    n1.collisions = [] ∧ n2.collisions = [] ∧
    (∃ t1 t2 : Ball K,
      State.actorsBefore m (State.update m s time).2 time2 1 = [.ball t1, .ball t2] ∧
      t1.velocity = collisionVector m
        (n1.reflectWalls (Ball.upperLimit s.display n1) (Ball.lowerLimit n1)) n2 ∧
      t2.velocity = collisionVector m n2
        (n1.reflectWalls (Ball.upperLimit s.display n1) (Ball.lowerLimit n1)) ∧
      t1.collisions = [1] ∧ t2.collisions = [1]) ∧
    (∀ (updateId : Nat) (this a0 x : Ball K), (a0.id + updateId) ∈ this.collisions →
      Ball.checkBallCollision m updateId 1 this [.ball a0, .ball x]
        = (this, [.ball a0, .ball x])) := by
  have hall := State.update_returned_actors m s time
  rw [hret] at hall
  have h1 := hall (.ball n1) (by simp)
  have h2 := hall (.ball n2) (by simp)
  have hc1 : n1.collisions = [] := h1.1
  have hi1 : n1.id = 0 := h1.2
  have hc2 : n2.collisions = [] := h2.1
  have hi2 : n2.id = 0 := h2.2
  have hrc := Ball.reflectWalls_collisions (Ball.upperLimit s.display n1) (Ball.lowerLimit n1) n1
  refine ⟨hc1, hc2, ?_, fun updateId this a0 x h =>
    Ball.checkBallCollision_pair_tagged m updateId this a0 x h⟩
  have hscan := Ball.checkBallCollision_pair_resolved m 1
    (n1.reflectWalls (Ball.upperLimit s.display n1) (Ball.lowerLimit n1)) n1 n2
    (by rw [hrc.1, hc1]; simp) hnear
  have hup := Ball.update_of_scan m s.display time2 1 0 n1 _ _ _ _ hscan
    (Ball.checkHollowCircleCollision_no_circle m 1 _ _ (by simp))
  have hab := State.actorsBefore_one m (State.update m s time).2 time2 (.ball n1) [.ball n2] hret
  refine ⟨{ n1.reflectWalls (Ball.upperLimit s.display n1) (Ball.lowerLimit n1) with
      velocity := collisionVector m
        (n1.reflectWalls (Ball.upperLimit s.display n1) (Ball.lowerLimit n1)) n2,
      collisions := (n1.reflectWalls (Ball.upperLimit s.display n1)
        (Ball.lowerLimit n1)).collisions ++ [n2.id + 1] },
    { n2 with
      velocity := collisionVector m n2
        (n1.reflectWalls (Ball.upperLimit s.display n1) (Ball.lowerLimit n1)),
      collisions := n2.collisions ++ [(n1.reflectWalls (Ball.upperLimit s.display n1)
        (Ball.lowerLimit n1)).id + 1] }, ?_, rfl, rfl, ?_, ?_⟩
  · rw [hab, hret]
    show (Ball.update m s.display time2 1 0 n1 [.ball n1, .ball n2]).1 = _
    rw [hup]
    rfl
  · show (n1.reflectWalls (Ball.upperLimit s.display n1) (Ball.lowerLimit n1)).collisions
      ++ [n2.id + 1] = [1]
    rw [hrc.1, hc1, hi2]
    rfl
  · show n2.collisions
      ++ [(n1.reflectWalls (Ball.upperLimit s.display n1) (Ball.lowerLimit n1)).id + 1] = [1]
    rw [hrc.2, hc2, hi1]
    rfl

/-- The amended C14 at the overlapping pair: the state returned by the first update holds two
balls without tags, and the callback of the first ball in the following update resolves the pair
and tags both balls. -/
theorem C14_tags_are_dropped_by_the_constructor_witness :
    ∃ n1 n2 t1 t2 : Ball ℚ,
      (State.update mathQ overlapState (.fin 0)).2.actors = [.ball n1, .ball n2] ∧
      n1.collisions = [] ∧ n2.collisions = [] ∧
      State.actorsBefore mathQ (State.update mathQ overlapState (.fin 0)).2 (.fin 0) 1
        = [.ball t1, .ball t2] ∧
      t1.collisions = [1] ∧ t2.collisions = [1] := by
  obtain ⟨n1, n2, hst, hv1, hv2, hp1, hp2, hr1, hr2, hg1, _, _, _, _, _⟩ :=
    State.update_head_on mathQ overlapState (.fin 0) overlapLeft overlapRight
      800 800 100 110 100 1 (-1) 10 rfl rfl rfl rfl rfl rfl rfl rfl rfl rfl
      (by norm_num) (by norm_num) (by norm_num) (by norm_num) (by norm_num) mathQ_PI_pos
      (mathQ_sqrt_mul_self _)
      (by
        rw [mathQ_lookAhead_horizontal overlapLeft overlapRight 100 110 100 1 (-1) 10 10
          rfl rfl rfl rfl rfl rfl]
        norm_num [abs_le])
      (by simp [overlapLeft, Ball.new])
  have ex1 : max (min ((100 : ℚ) + -1) (800 - 10)) (0 + 10) = 99 := by norm_num
  have ex2 : max (min ((110 : ℚ) + 1) (800 - 10)) (0 + 10) = 111 := by norm_num
  have ey : max (min ((100 : ℚ) + 0) (800 - 10)) (0 + 10) = 100 := by norm_num
  rw [ex1, ey] at hp1
  rw [ex2, ey] at hp2
  have hret : (State.update mathQ overlapState (.fin 0)).2.actors = [.ball n1, .ball n2] := by
    rw [hst]
    rfl
  have hrw := Ball.reflectWalls_fin 800 800 99 100 (-1) 0 10 0 0 n1 overlapState.display rfl
    hp1 hv1 hr1 hg1
  have hcx : ¬ ((800 : ℚ) - 10 ≤ 99 ∨ (99 : ℚ) ≤ 0 + 10) := by norm_num
  have hcy : ¬ ((800 : ℚ) - 10 ≤ 100 ∨ (100 : ℚ) ≤ 0 + 10) := by norm_num
  rw [if_neg hcx, if_neg hcy] at hrw
  simp only [add_zero] at hrw
  have hb : ({ n1 with velocity := Vector.ofK (-1) 0 } : Ball ℚ) = n1 := by
    rw [← hv1]
  rw [hb] at hrw
  obtain ⟨h1, h2, ⟨t1, t2, hab, _, _, ht1, ht2⟩, _⟩ :=
    C14_tags_are_dropped_by_the_constructor mathQ overlapState (.fin 0) (.fin 0) n1 n2 hret
      (by
        rw [hrw, mathQ_lookAhead_horizontal n1 n2 99 111 100 (-1) 1 10 10 hp1 hp2 hv1 hv2 hr1 hr2]
        norm_num [abs_le])
  exact ⟨n1, n2, t1, t2, hret, h1, h2, hab, ht1, ht2⟩

/-! ## Reflection at the floor and the ceiling (C15) -/

/-- C15: for every ball with finite fields whose `position.y <= r` or `position.y >= H - r`, in
a state that holds no other actor, the ball returned by `Ball.update` has
`velocity.y = -(velocity.y + gravityForce.y) + 1.5 * gravityForce.y` (gravity is added first),
and `velocity.x` is what gravity and the side-wall test made of it: `velocity.x + gravityForce.x`,
negated when the ball is at a side wall. -/
theorem C15_vertical_bounce [FloorRing K] (m : JSMath K) (display : Canvas K) (time : JSNum K)
    (updateId : Nat) (b : Ball K) (W H px py vx vy r gx gy : K)
    (hd : display = ⟨.fin W, .fin H⟩)
    (hp : b.position = .ofK px py) (hv : b.velocity = .ofK vx vy) (hr : b.radius = .fin r)
    (hg : b.gravityForce = .ofK gx gy)
    (hwall : py ≤ r ∨ H - r ≤ py) :
    (Ball.update m display time updateId 0 b [.ball b]).2.velocity.y
      = .fin (-(vy + gy) + 3 / 2 * gy) ∧
    (Ball.update m display time updateId 0 b [.ball b]).2.velocity.x
      = .fin (if W - r ≤ px ∨ px ≤ r then -(vx + gx) else vx + gx) := by
  have hrw := Ball.reflectWalls_fin W H px py vx vy r gx gy b display hd hp hv hr hg
  have hc : H - r ≤ py ∨ py ≤ 0 + r := by
    rcases hwall with h | h
    · right; simpa using h
    · left; exact h
  rw [if_pos hc, zero_add] at hrw
  rw [Ball.update_alone m display time updateId b _ hrw]
  refine ⟨?_, rfl⟩
  show JSNum.fin (-(vy + gy) + gy * (3 / 2)) = _
  congr 1
  ring

/-- C15 at a ball at `(400, 795)` with velocity `(1, 2)`, radius 10 and gravity force `(0, 1)` on
the 800 high display: the returned velocity is `(1, -1.5)`. -/
theorem C15_vertical_bounce_witness :
    (Ball.update mathQ display800 (.fin 0) 1 0 floorBall [.ball floorBall]).2.velocity.y
      = .fin (-3 / 2) ∧
    (Ball.update mathQ display800 (.fin 0) 1 0 floorBall [.ball floorBall]).2.velocity.x
      = .fin 1 := by
  have h := C15_vertical_bounce mathQ display800 (.fin 0) 1 floorBall 800 800 400 795 1 2 10 0 1
    rfl rfl rfl rfl rfl (Or.inr (by norm_num))
  refine ⟨?_, ?_⟩
  · rw [h.1]; norm_num
  · rw [h.2]; norm_num

/-! ## Division by the squared distance (C16) -/

theorem defaultBall_reflectWalls :
    defaultBall.reflectWalls (Ball.upperLimit display800 defaultBall) (Ball.lowerLimit defaultBall)
      = { defaultBall with velocity := (Vector.ofK (3 / 4 + 0 * (mathQ.PI * (10 * 10)))
            (3 / 2 + 5 / 100000 * (mathQ.PI * (10 * 10)))) } := by
  rw [Ball.reflectWalls_fin 800 800 20 20 (3 / 4) (3 / 2) 10 (0 * (mathQ.PI * (10 * 10)))
    (5 / 100000 * (mathQ.PI * (10 * 10))) defaultBall display800 rfl rfl rfl rfl rfl]
  have hc : ¬ ((800 : ℚ) - 10 ≤ 20 ∨ (20 : ℚ) ≤ 0 + 10) := by norm_num
  simp only [hc, if_false]

/-- The look-ahead test of the first of two default balls against the second succeeds. -/
theorem defaultBall_lookAhead :
    JSNum.le
      (((defaultBall.position.add
          (defaultBall.reflectWalls (Ball.upperLimit display800 defaultBall)
            (Ball.lowerLimit defaultBall)).velocity).subtract
        (defaultBall.position.add defaultBall.velocity)).magnitude mathQ)
      (defaultBall.radius + defaultBall.radius) = true := by
  rw [defaultBall_reflectWalls]
  simp only [defaultBall, Ball.new, objOrDefault, JSNum.orDefault, Vector.ofK, Vector.add,
    Vector.subtract, Vector.magnitude, JSNum.fin_add_fin, JSNum.fin_sub_fin, JSNum.sq_fin,
    JSMath.sqrtNum]
  have harg : ((20 + (3 / 4 + 0 * (mathQ.PI * (10 * 10)))) - (20 + 3 / 4 : ℚ)) *
        ((20 + (3 / 4 + 0 * (mathQ.PI * (10 * 10)))) - (20 + 3 / 4)) +
      ((20 + (3 / 2 + 5 / 100000 * (mathQ.PI * (10 * 10)))) - (20 + 3 / 2)) *
        ((20 + (3 / 2 + 5 / 100000 * (mathQ.PI * (10 * 10)))) - (20 + 3 / 2))
      = (5 / 100000 * (mathQ.PI * (10 * 10))) * (5 / 100000 * (mathQ.PI * (10 * 10))) := by
    ring
  have hs : mathQ.sqrt ((5 / 100000 * (mathQ.PI * (10 * 10))) *
      (5 / 100000 * (mathQ.PI * (10 * 10)))) = |5 / 100000 * (mathQ.PI * (10 * 10))| :=
    Rat.sqrt_eq _
  rw [harg, hs, if_neg (not_lt.mpr (mul_self_nonneg _))]
  simp only [JSNum.le_fin_fin, decide_eq_true_eq]
  norm_num [mathQ, abs_le]

/-- C16, evaluated where it fails: for two default balls, both at `(20, 20)`, the scan of the
first ball resolves the pair (the tag `1` is pushed) although the squared distance of the two
current positions, the divisor in `collisionVector`, is `0`; the velocity written is
`(NaN, NaN)`. -/
theorem C16_zero_distance_pair_is_resolved :
    defaultBall.position = Vector.ofK 20 20 ∧
    (Ball.checkBallCollision mathQ 1 0
      (defaultBall.reflectWalls (Ball.upperLimit display800 defaultBall)
        (Ball.lowerLimit defaultBall))
      [.ball defaultBall, .ball defaultBall]).1.collisions = [1] ∧
    (Ball.checkBallCollision mathQ 1 0
      (defaultBall.reflectWalls (Ball.upperLimit display800 defaultBall)
        (Ball.lowerLimit defaultBall))
      [.ball defaultBall, .ball defaultBall]).1.velocity = ⟨.nan, .nan⟩ ∧
    ((defaultBall.position.subtract defaultBall.position).magnitude mathQ).sq = .fin 0 := by
  have hscan := Ball.checkBallCollision_pair_resolved mathQ 1
    (defaultBall.reflectWalls (Ball.upperLimit display800 defaultBall)
      (Ball.lowerLimit defaultBall)) defaultBall defaultBall
    (by rw [defaultBall_reflectWalls]; simp [defaultBall, Ball.new])
    (by
      have h := defaultBall_lookAhead
      rw [defaultBall_reflectWalls] at h ⊢
      exact h)
  have hcv : collisionVector mathQ
      (defaultBall.reflectWalls (Ball.upperLimit display800 defaultBall)
        (Ball.lowerLimit defaultBall)) defaultBall = ⟨.nan, .nan⟩ := by
    rw [defaultBall_reflectWalls]
    exact collisionVector_same_position mathQ _ defaultBall 20 20 _ _ (3 / 4) (3 / 2) rfl rfl rfl
      rfl mathQ_sqrt_zero
  rw [hscan]
  refine ⟨rfl, ?_, hcv, ?_⟩
  · rw [defaultBall_reflectWalls]
    rfl
  · have h0 := mathQ_sqrt_zero
    simp [defaultBall, Ball.new, objOrDefault, Vector.subtract, Vector.magnitude,
      JSMath.sqrtNum, h0]

/-! ## Momentum in a collision of unequal balls (C17) -/

/-- C17: for every two balls with finite fields, radii `r1, r2 > 0` and distinct positions, with
`Math.PI` positive and `Math.sqrt` exact at the squared distance of the two centres, the
velocities `v1' = collisionVector(b1, b2)` and `v2' = collisionVector(b2, b1)` conserve the
area-weighted momentum componentwise: `area1 * v1' + area2 * v2' = area1 * v1 + area2 * v2`,
where `area_i` is `sphereArea`, `4 PI r_i^2`. -/
theorem C17_momentum_conservation (m : JSMath K) (b1 b2 : Ball K)
    (x1 y1 x2 y2 vx1 vy1 vx2 vy2 r1 r2 : K)
    (hp1 : b1.position = .ofK x1 y1) (hp2 : b2.position = .ofK x2 y2)
    (hv1 : b1.velocity = .ofK vx1 vy1) (hv2 : b2.velocity = .ofK vx2 vy2)
    (hr1 : b1.radius = .fin r1) (hr2 : b2.radius = .fin r2)
    (hr1pos : 0 < r1) (hr2pos : 0 < r2) (hpi : 0 < m.PI) (hne : x1 ≠ x2 ∨ y1 ≠ y2)
    (hsqrt : m.sqrt ((x1 - x2) * (x1 - x2) + (y1 - y2) * (y1 - y2)) *
        m.sqrt ((x1 - x2) * (x1 - x2) + (y1 - y2) * (y1 - y2))
      = (x1 - x2) * (x1 - x2) + (y1 - y2) * (y1 - y2)) :
    ((collisionVector m b1 b2).multiply (b1.sphereArea m)).add
        ((collisionVector m b2 b1).multiply (b2.sphereArea m))
      = (b1.velocity.multiply (b1.sphereArea m)).add (b2.velocity.multiply (b2.sphereArea m)) ∧
    (b1.velocity.multiply (b1.sphereArea m)).add (b2.velocity.multiply (b2.sphereArea m))
      = .ofK (vx1 * (4 * m.PI * (r1 * r1)) + vx2 * (4 * m.PI * (r2 * r2)))
          (vy1 * (4 * m.PI * (r1 * r1)) + vy2 * (4 * m.PI * (r2 * r2))) := by
  have hd := sqDist_pos x1 y1 x2 y2 hne
  have hs : m.sqrt ((x1 - x2) * (x1 - x2) + (y1 - y2) * (y1 - y2)) ≠ 0 := by
    intro h0
    rw [h0, mul_zero] at hsqrt
    exact absurd hsqrt.symm (ne_of_gt hd)
  have hflip : (x2 - x1) * (x2 - x1) + (y2 - y1) * (y2 - y1)
      = (x1 - x2) * (x1 - x2) + (y1 - y2) * (y1 - y2) := by ring
  have hA1 : 0 < 4 * m.PI * (r1 * r1) := by positivity
  have hA2 : 0 < 4 * m.PI * (r2 * r2) := by positivity
  have hA : 4 * m.PI * (r1 * r1) + 4 * m.PI * (r2 * r2) ≠ 0 := by linarith
  have hA' : 4 * m.PI * (r2 * r2) + 4 * m.PI * (r1 * r1) ≠ 0 := by linarith
  have h12 := collisionVector_fin m b1 b2 x1 y1 x2 y2 vx1 vy1 vx2 vy2 r1 r2 hp1 hp2 hv1 hv2
    hr1 hr2 hs hA
  have h21 := collisionVector_fin m b2 b1 x2 y2 x1 y1 vx2 vy2 vx1 vy1 r2 r1 hp2 hp1 hv2 hv1
    hr2 hr1 (by rw [hflip]; exact hs) hA'
  rw [hflip] at h21
  rw [hsqrt] at h12 h21
  have hnum : (vx2 - vx1) * (x2 - x1) + (vy2 - vy1) * (y2 - y1)
      = (vx1 - vx2) * (x1 - x2) + (vy1 - vy2) * (y1 - y2) := by ring
  rw [hnum] at h21
  generalize ((vx1 - vx2) * (x1 - x2) + (vy1 - vy2) * (y1 - y2)) /
        ((x1 - x2) * (x1 - x2) + (y1 - y2) * (y1 - y2)) = c at h12 h21
  rw [h12, h21]
  simp only [hv1, hv2, hr1, hr2, Vector.ofK, Vector.multiply, Vector.add, Ball.sphereArea,
    JSNum.fin_mul_fin, JSNum.fin_add_fin, JSNum.sq_fin, and_true]
  generalize 4 * m.PI * (r1 * r1) = A1 at hA hA' hA1 ⊢
  generalize 4 * m.PI * (r2 * r2) = A2 at hA hA' hA2 ⊢
  congr 2
  · field_simp
    ring
  · field_simp
    ring

/-- C17 at a ball of radius 10 at `(100, 100)` and a ball of radius 5 at `(103, 104)`. -/
theorem C17_momentum_conservation_witness :
    ((collisionVector mathQ energyBallA smallBall).multiply (energyBallA.sphereArea mathQ)).add
        ((collisionVector mathQ smallBall energyBallA).multiply (smallBall.sphereArea mathQ))
      = (energyBallA.velocity.multiply (energyBallA.sphereArea mathQ)).add
          (smallBall.velocity.multiply (smallBall.sphereArea mathQ)) :=
  (C17_momentum_conservation mathQ energyBallA smallBall 100 100 103 104 1 0 (-1) 2 10 5
    rfl rfl rfl rfl rfl rfl (by norm_num) (by norm_num) mathQ_PI_pos (Or.inl (by norm_num))
    mathQ_sqrt_25).1

/-! ## The time step (C18) -/

/-- C18: for every state `s` and every two time steps `dt1` and `dt2`, `s.update(dt1)` and
`s.update(dt2)` give the same result (the same returned state and the same mutated receiver);
so do `Ball.update` and `Circle.update`: no method reads the time step.  A gap with finite
fields rotates by `rotationSpeed * rotationDirection` per call, whatever the time step. -/
theorem C18_time_step_is_not_read [FloorRing K] (m : JSMath K) (s : State K)
    (dt1 dt2 : JSNum K) :
    State.update m s dt1 = State.update m s dt2 ∧
    (∀ (display : Canvas K) (updateId i : Nat) (this : Ball K) (actors : List (Actor K)),
      Ball.update m display dt1 updateId i this actors
        = Ball.update m display dt2 updateId i this actors) ∧
    (∀ c : Circle K, Circle.update m dt1 c = Circle.update m dt2 c) ∧
    (∀ (c : Circle K) (start speed direction : K),
      (Circle.rotate m { c with openGapStart := .fin start, rotationSpeed := .fin speed,
                                rotationDirection := .fin direction }).openGapStart
        = .fin (if m.PI * 2 < start + speed * direction then start + speed * direction - m.PI * 2
                else if start + speed * direction < 0 then start + speed * direction + m.PI * 2
                else start + speed * direction)) := by
  refine ⟨?_, fun _ _ _ _ _ => rfl, fun _ => rfl, ?_⟩
  swap
  · intro c start speed direction
    simp only [Circle.rotate, JSNum.fin_mul_fin, JSNum.fin_add_fin, JSNum.gt_fin_fin,
      JSNum.lt_fin_fin, decide_eq_true_eq, JSNum.fin_sub_fin]
    split_ifs <;> rfl
  have hstep : State.updateStep m s.display dt1 (s.updateId + 1)
      = State.updateStep m s.display dt2 (s.updateId + 1) := by
    funext st i
    unfold State.updateStep
    cases st.1[i]? with
    | none => rfl
    | some actor => cases actor <;> rfl
  simp only [State.update, hstep]

/-! ## A gap that wraps around the full turn (C19) -/

/-- C19: take `circle3` of `startGame` as the constructor builds it (`openGapStart = 2 PI`,
`openAngleRange = PI / 4`, centre `(400, 400)`, radius 180) and a ball of radius 6 at
`(580, 400)` with velocity `(1, 0)`.  The normalised angle of the ball is `0`, which lies in the
gap arc modulo a full turn (`0 + 2 PI <= openGapStart + openAngleRange`); the predicted distance
181 lies in the collision band; `inOpenGap` is false and the iteration of
`checkHollowCircleCollision` for the circle reflects the velocity to `(-1, 0)`.  `Math.PI` is
positive, `Math.atan2(0, 180)` is `0` and `Math.sqrt` is exact at `180^2` and `181^2`. -/
theorem C19_wrapped_gap_is_wall [FloorRing K] (m : JSMath K) (updateId : Nat)
    (hpi : 0 < m.PI) (hatan : m.atan2 0 180 = 0)
    (hs181 : m.sqrt (181 * 181) = 181) (hs180 : m.sqrt (180 * 180) = 180) :
    (Circle.new m (circle3Config m)).openGapStart = .fin (2 * m.PI) ∧
    (Circle.new m (circle3Config m)).openGapEnd = .fin (2 * m.PI + m.PI / 4) ∧
    normalizedAngle m (wrapBall m) (Circle.new m (circle3Config m)) = .fin 0 ∧
    (0 : K) + 2 * m.PI ≤ 2 * m.PI + m.PI / 4 ∧
    JSNum.ge ((((wrapBall m).position.add (wrapBall m).velocity).subtract
        ((Circle.new m (circle3Config m)).position.add
          (Circle.new m (circle3Config m)).velocity)).magnitude m)
      ((Circle.new m (circle3Config m)).radius - (wrapBall m).radius) = true ∧
    JSNum.le ((((wrapBall m).position.add (wrapBall m).velocity).subtract
        ((Circle.new m (circle3Config m)).position.add
          (Circle.new m (circle3Config m)).velocity)).magnitude m)
      ((Circle.new m (circle3Config m)).radius + .fin 9) = true ∧
    inOpenGap m (wrapBall m) (Circle.new m (circle3Config m)) = false ∧
    (Ball.checkHollowCircleCollisionStep m updateId (wrapBall m)
      (.circle (Circle.new m (circle3Config m)))).velocity = Vector.ofK (-1) 0 ∧
    (wrapBall m).velocity = Vector.ofK 1 0 := by
  have h2pi : (2 : K) * m.PI ≠ 0 := by positivity
  have h4 : (4 : K) ≠ 0 := by norm_num
  have hq : m.PI / 4 ≠ 0 := by positivity
  have hstart : (Circle.new m (circle3Config m)).openGapStart = .fin (2 * m.PI) := by
    simp [Circle.new, circle3Config, JSNum.orDefault, JSNum.truthy, h2pi, ne_of_gt hpi]
  have hrange : (Circle.new m (circle3Config m)).openAngleRange = .fin (m.PI / 4) := by
    simp [Circle.new, circle3Config, JSNum.orDefault, JSNum.truthy, JSNum.fin_div_fin _ _ h4,
      ne_of_gt hpi]
  have hend : (Circle.new m (circle3Config m)).openGapEnd = .fin (2 * m.PI + m.PI / 4) := by
    show (Circle.new m (circle3Config m)).openGapStart
      + (Circle.new m (circle3Config m)).openAngleRange = _
    rw [hstart, hrange]
    rfl
  have hpos : (Circle.new m (circle3Config m)).position = Vector.ofK 400 400 := rfl
  have hvel : (Circle.new m (circle3Config m)).velocity = Vector.ofK 0 0 := rfl
  have hrad : (Circle.new m (circle3Config m)).radius = .fin 180 := by
    simp [Circle.new, circle3Config, JSNum.orDefault, JSNum.truthy]
  have hbp : (wrapBall m).position = Vector.ofK 580 400 := rfl
  have hbv : (wrapBall m).velocity = Vector.ofK 1 0 := rfl
  have hbr : (wrapBall m).radius = .fin 6 := by
    simp [wrapBall, Ball.new, JSNum.orDefault, JSNum.truthy]
  have hangle : normalizedAngle m (wrapBall m) (Circle.new m (circle3Config m)) = .fin 0 := by
    have e1 : (400 : K) - 400 = 0 := by norm_num
    have e2 : (580 : K) - 400 = 180 := by norm_num
    simp only [normalizedAngle, hpos, hbp, Vector.ofK, JSNum.fin_sub_fin, JSMath.atan2Num,
      JSNum.fin_add_fin, JSNum.fin_mul_fin, JSNum.fmod, if_neg h2pi, e1, e2, hatan, zero_add,
      div_self h2pi]
    norm_num
  have hdist : (((wrapBall m).position.add (wrapBall m).velocity).subtract
        ((Circle.new m (circle3Config m)).position.add
          (Circle.new m (circle3Config m)).velocity)).magnitude m = .fin 181 := by
    have e : ((580 : K) + 1 - (400 + 0)) * (580 + 1 - (400 + 0))
        + (400 + 0 - (400 + 0)) * (400 + 0 - (400 + 0)) = 181 * 181 := by norm_num
    have hnn : ¬ ((181 : K) * 181 < 0) := by norm_num
    simp only [hpos, hvel, hbp, hbv, Vector.ofK, Vector.add, Vector.subtract, Vector.magnitude,
      JSNum.fin_add_fin, JSNum.fin_sub_fin, JSNum.sq_fin, JSMath.sqrtNum, e, if_neg hnn, hs181]
  have hgap : inOpenGap m (wrapBall m) (Circle.new m (circle3Config m)) = false := by
    simp only [inOpenGap, hangle, hstart, JSNum.ge_fin_fin, Bool.and_eq_false_imp,
      decide_eq_true_eq]
    intro h
    linarith
  have hcv : hollowCircleCollisionVector m (wrapBall m) (Circle.new m (circle3Config m))
      = Vector.ofK (-1) 0 := by
    have e : ((400 : K) - 580) * (400 - 580) + (400 - 400) * (400 - 400) = 180 * 180 := by
      norm_num
    have h180 : (180 : K) ≠ 0 := by norm_num
    rw [hollowCircleCollisionVector_fin m _ _ 580 400 400 400 1 0 hbp hpos hbv
      (by rw [e, hs180]; exact h180), e, hs180]
    congr 1 <;> norm_num
  refine ⟨hstart, hend, hangle, by linarith, ?_, ?_, hgap, ?_, hbv⟩
  · rw [hdist, hrad, hbr]
    simp only [JSNum.fin_sub_fin, JSNum.ge_fin_fin, decide_eq_true_eq]
    norm_num
  · rw [hdist, hrad]
    simp only [JSNum.fin_add_fin, JSNum.le_fin_fin, decide_eq_true_eq]
    norm_num
  · have hge : JSNum.ge (.fin 181 : JSNum K) (.fin 180 - .fin 6) = true := by
      simp only [JSNum.fin_sub_fin, JSNum.ge_fin_fin, decide_eq_true_eq]
      norm_num
    have hle : JSNum.le (.fin 181 : JSNum K) (.fin 180 + .fin 9) = true := by
      simp only [JSNum.fin_add_fin, JSNum.le_fin_fin, decide_eq_true_eq]
      norm_num
    simp only [Ball.checkHollowCircleCollisionStep, hdist, hrad, hbr, hge, hle, hgap,
      Bool.not_false, Bool.and_self, if_true, hcv]

/-- C19 with the rational stand-in for `Math`. -/
theorem C19_wrapped_gap_is_wall_witness :
    inOpenGap mathQ (wrapBall mathQ) (Circle.new mathQ (circle3Config mathQ)) = false ∧
    (Ball.checkHollowCircleCollisionStep mathQ 1 (wrapBall mathQ)
      (.circle (Circle.new mathQ (circle3Config mathQ)))).velocity = Vector.ofK (-1) 0 := by
  have h := C19_wrapped_gap_is_wall mathQ 1 mathQ_PI_pos
    (by norm_num [mathQ, atan2Q])
    (by show Rat.sqrt (181 * 181) = 181; rw [Rat.sqrt_eq]; norm_num)
    (by show Rat.sqrt (180 * 180) = 180; rw [Rat.sqrt_eq]; norm_num)
  exact ⟨h.2.2.2.2.2.2.1, h.2.2.2.2.2.2.2.1⟩

/-! ## One resolution per scan (C20) -/

/-- One iteration of the ball scan is skipped when `this` carries the tag `updateId` and every
actor has `id` 0. -/
theorem Ball.checkBallCollisionStep_tagged (m : JSMath K) (updateId i : Nat)
    (st : Ball K × List (Actor K)) (j : Nat)
    (hid : ∀ a ∈ st.2, Actor.id a = 0) (htag : updateId ∈ st.1.collisions) :
    Ball.checkBallCollisionStep m updateId i st j = st := by
  unfold Ball.checkBallCollisionStep
  split
  · rename_i actor hj
    have hmem : Actor.ball actor ∈ st.2 := List.getElem?_mem hj
    have h0 : actor.id = 0 := hid _ hmem
    rw [if_pos (Or.inr (by rw [h0, Nat.zero_add]; exact htag))]
  · rfl

/-- One iteration of the ball scan keeps every `id` and pushes at most the tag `updateId`. -/
theorem Ball.checkBallCollisionStep_ids (m : JSMath K) (updateId i : Nat)
    (st : Ball K × List (Actor K)) (j : Nat) (hid : ∀ a ∈ st.2, Actor.id a = 0) :
    (∀ a ∈ (Ball.checkBallCollisionStep m updateId i st j).2, Actor.id a = 0) ∧
    (Ball.checkBallCollisionStep m updateId i st j = st ∨
      (Ball.checkBallCollisionStep m updateId i st j).1.collisions
        = st.1.collisions ++ [updateId]) := by
  unfold Ball.checkBallCollisionStep
  split
  · rename_i actor hj
    have hmem : Actor.ball actor ∈ st.2 := List.getElem?_mem hj
    have h0 : actor.id = 0 := hid _ hmem
    by_cases hskip : i = j ∨ (actor.id + updateId) ∈ st.1.collisions
    · rw [if_pos hskip]
      exact ⟨hid, Or.inl rfl⟩
    · rw [if_neg hskip]
      by_cases hnear : JSNum.le (((st.1.position.add st.1.velocity).subtract
          (actor.position.add actor.velocity)).magnitude m) (st.1.radius + actor.radius) = true
      · simp only [hnear, if_true]
        refine ⟨?_, Or.inr (by rw [h0, Nat.zero_add])⟩
        intro a ha
        rcases List.mem_or_eq_of_mem_set ha with h | h
        · exact hid a h
        · rw [h]
          exact h0
      · simp only [hnear]
        exact ⟨hid, Or.inl rfl⟩
  · exact ⟨hid, Or.inl rfl⟩

/-- The scan over a list of positions pushes the tag `updateId` at most once. -/
theorem Ball.checkBallCollision_fold_once (m : JSMath K) (updateId i : Nat) (js : List Nat) :
    ∀ st : Ball K × List (Actor K), (∀ a ∈ st.2, Actor.id a = 0) →
      js.foldl (Ball.checkBallCollisionStep m updateId i) st = st ∨
      (js.foldl (Ball.checkBallCollisionStep m updateId i) st).1.collisions
        = st.1.collisions ++ [updateId] := by
  induction js with
  | nil => intro st _; exact Or.inl rfl
  | cons j rest ih =>
    intro st hid
    obtain ⟨hid', hstep⟩ := Ball.checkBallCollisionStep_ids m updateId i st j hid
    rw [List.foldl_cons]
    rcases hstep with h | h
    · rw [h]
      exact ih st hid
    · right
      have htag : updateId ∈ (Ball.checkBallCollisionStep m updateId i st j).1.collisions := by
        rw [h]; simp
      have hfix : ∀ (l : List Nat) (t : Ball K × List (Actor K)),
          (∀ a ∈ t.2, Actor.id a = 0) → updateId ∈ t.1.collisions →
          l.foldl (Ball.checkBallCollisionStep m updateId i) t = t := by
        intro l
        induction l with
        | nil => intro t _ _; rfl
        | cons k l ihl =>
          intro t ht1 ht2
          rw [List.foldl_cons, Ball.checkBallCollisionStep_tagged m updateId i t k ht1 ht2]
          exact ihl t ht1 ht2
      rw [hfix rest _ hid' htag, h]

/-- C20: when every actor has `id` 0, as every actor built by a constructor has, the collision
tag `actor.id + updateId` is `updateId` for every actor, and a single call of
`checkBallCollision` either changes nothing or pushes exactly one tag (it resolves at most one
pair); if the ball already carries the tag the whole scan changes nothing; and once the tag is
present every iteration is skipped, whatever the predicted distance. -/
theorem C20_at_most_one_resolution_per_scan (m : JSMath K) (updateId i : Nat) (this : Ball K)
    (actors : List (Actor K)) (hid : ∀ a ∈ actors, Actor.id a = 0) :
    (Ball.checkBallCollision m updateId i this actors = (this, actors) ∨
      (Ball.checkBallCollision m updateId i this actors).1.collisions
        = this.collisions ++ [updateId]) ∧
    (updateId ∈ this.collisions →
      Ball.checkBallCollision m updateId i this actors = (this, actors)) ∧
    (∀ (st : Ball K × List (Actor K)) (j : Nat), (∀ a ∈ st.2, Actor.id a = 0) →
      updateId ∈ st.1.collisions → Ball.checkBallCollisionStep m updateId i st j = st) ∧
    (∀ config : BallConfig K, (Ball.new m config).id = 0) ∧
    (∀ config : CircleConfig K, (Circle.new m config).id = 0) := by
  refine ⟨Ball.checkBallCollision_fold_once m updateId i _ (this, actors) hid, ?_,
    fun st j h1 h2 => Ball.checkBallCollisionStep_tagged m updateId i st j h1 h2,
    fun _ => rfl, fun _ => rfl⟩
  intro htag
  unfold Ball.checkBallCollision
  generalize List.range actors.length = js
  induction js with
  | nil => rfl
  | cons k l ih =>
    rw [List.foldl_cons, Ball.checkBallCollisionStep_tagged m updateId i (this, actors) k hid htag]
    exact ih

/-- C20 at the first of three overlapping balls built by the constructor. -/
theorem C20_at_most_one_resolution_per_scan_witness :
    Ball.checkBallCollision mathQ 1 0 crowdFirst crowd = (crowdFirst, crowd) ∨
    (Ball.checkBallCollision mathQ 1 0 crowdFirst crowd).1.collisions
      = crowdFirst.collisions ++ [1] :=
  (C20_at_most_one_resolution_per_scan mathQ 1 0 crowdFirst crowd
    (by
      intro a ha
      simp only [crowd, List.mem_cons, List.mem_singleton, List.not_mem_nil, or_false] at ha
      rcases ha with h | h | h <;> rw [h] <;> rfl)).1

end BallSim
